import Mathlib

/-!
Verification development for the medical-report extraction pipeline of
`backend_flask/app.py` (functions `clean_and_normalize_ocr_text`,
`extract_lab_values_from_cbc`, `analyze_medical_text_enhanced` and the
priority portion of `intelligent_medical_summarization`).

The embedding is shallow: Python strings are Lean `String`s; Python floats are
exact rationals represented as numerator/denominator pairs (`PyFloat`): every
number this pipeline manipulates is a short decimal numeral, on which the
float comparisons of the source behave exactly like exact rational
comparisons.  Python `str.replace` / `in` / `.upper()` are implemented below
with the same semantics on the ASCII texts in scope.  The source's calls to
`re.finditer` are an external engine; extraction functions therefore take the
per-pattern capture lists as an explicit argument, while the plain substring
scans the source performs (`'CBC' in text`, `re.search(r'\b(\d{3})\b', ...)`,
`re.search(r'(\d+)', ...)`) are implemented for real.
-/

namespace SymptoSeek

/-! ## String primitives -/

/-- ASCII word character, as in Python's regex `\w` on the texts in scope. -/
def isWordChar (c : Char) : Bool := c.isAlpha || c.isDigit || c == '_'

/-- Embedding of Python `str.replace pat rep`: leftmost, non-overlapping,
the inserted replacement is not rescanned.  Structural recursion on a fuel
argument (one unit per consumed character position) so that the function
computes inside the kernel; `pyReplace` supplies fuel `s.length`, which
always suffices since each step consumes at least one character. -/
def pyReplaceAux (pat rep : List Char) : Nat → List Char → List Char
  | _, [] => []
  | 0, s => s
  | fuel + 1, c :: rest =>
    if pat ≠ [] ∧ pat.isPrefixOf (c :: rest) then
      rep ++ pyReplaceAux pat rep fuel ((c :: rest).drop pat.length)
    else
      c :: pyReplaceAux pat rep fuel rest

/-- Python `str.replace pat rep s` (an empty pattern is returned unchanged;
the source never replaces an empty string). -/
def pyReplace (pat rep s : List Char) : List Char :=
  pyReplaceAux pat rep s.length s

/-- Python `str.replace` on `String`s. -/
def srep (s pat rep : String) : String :=
  String.mk (pyReplace pat.data rep.data s.data)

/-- Embedding of Python `pat in s` (substring containment). -/
def occursIn (pat : List Char) : List Char → Bool
  | [] => pat.isPrefixOf []
  | c :: rest => pat.isPrefixOf (c :: rest) || occursIn pat rest

/-- Substring containment on `String`s. -/
def occursS (pat s : String) : Bool := occursIn pat.data s.data

/-- Maximal runs of word characters of a text (used to embed the
word-bounded regex searches `\b(\d{3})\b` and `\b(\d{4,5})\b`). -/
def wordRunsAux : List Char → List Char → List (List Char)
  | [], cur => if cur.isEmpty then [] else [cur.reverse]
  | c :: rest, cur =>
    if isWordChar c then wordRunsAux rest (c :: cur)
    else if cur.isEmpty then wordRunsAux rest []
    else cur.reverse :: wordRunsAux rest []

def wordRuns (s : List Char) : List (List Char) := wordRunsAux s []

/-- First match of `\b(\d{n})\b` style searches: the leftmost maximal run of
word characters that consists exclusively of digits and whose length lies in
`[lenLo, lenHi]`.  (A digit group inside a longer word run has a word
character on one side, so the regex boundary `\b` fails there; hence the
regex match set is exactly the all-digit word runs of the right length.) -/
def firstDigitRunLen (s : String) (lenLo lenHi : Nat) : Option String :=
  ((wordRuns s.data).find? fun r =>
    r.all Char.isDigit && decide (lenLo ≤ r.length) && decide (r.length ≤ lenHi)).map
    fun r => String.mk r

/-- First match of `re.search(r'(\d+)', s)`: the maximal digit run starting at
the first digit of `s`. -/
def firstDigitsIn (s : String) : Option String :=
  match s.data.dropWhile (fun c => !c.isDigit) with
  | [] => none
  | l => some (String.mk (l.takeWhile Char.isDigit))

/-- Numeric value of a digit string. -/
def digitsNat (l : List Char) : Nat :=
  l.foldl (fun a c => a * 10 + (c.toNat - 48)) 0

/-- ASCII uppercase of one character (Python `str.upper()` on the ASCII
texts in scope). -/
def pyCharUpper (c : Char) : Char :=
  if 'a' ≤ c ∧ c ≤ 'z' then Char.ofNat (c.toNat - 32) else c

/-- ASCII lowercase of one character (Python `str.lower()` on the ASCII
texts in scope). -/
def pyCharLower (c : Char) : Char :=
  if 'A' ≤ c ∧ c ≤ 'Z' then Char.ofNat (c.toNat + 32) else c

def pyUpper (s : String) : String := String.mk (s.data.map pyCharUpper)

def pyLower (s : String) : String := String.mk (s.data.map pyCharLower)

/-- Python `str.strip()`: drop whitespace from both ends. -/
def pyStrip (s : String) : String :=
  String.mk
    (((s.data.dropWhile Char.isWhitespace).reverse.dropWhile
      Char.isWhitespace).reverse)

/-- Python `str.startswith(pre)`. -/
def pyStartsWith (s pre : String) : Bool := pre.data.isPrefixOf s.data

/-- Python `str.split()` word count (used for the patient-name filter). -/
def countWords (s : String) : Nat :=
  ((s.split Char.isWhitespace).filter (· ≠ "")).length

/-! ## Exact float values

Python float values appear here as exact fractions `num / den`.  Comparisons
are by cross multiplication, so they are plain `Int` comparisons and compute
inside the kernel; `toRat` maps a value to `ℚ` for the order-theoretic
proofs. -/

structure PyFloat where
  num : Int
  den : Nat
deriving DecidableEq

instance : LT PyFloat :=
  ⟨fun x y => x.num * (y.den : Int) < y.num * (x.den : Int)⟩

instance : LE PyFloat :=
  ⟨fun x y => x.num * (y.den : Int) ≤ y.num * (x.den : Int)⟩

instance (x y : PyFloat) : Decidable (x < y) :=
  inferInstanceAs (Decidable (x.num * (y.den : Int) < y.num * (x.den : Int)))

instance (x y : PyFloat) : Decidable (x ≤ y) :=
  inferInstanceAs (Decidable (x.num * (y.den : Int) ≤ y.num * (x.den : Int)))

/-- Float multiplication (exact on the decimal constants in scope). -/
def PyFloat.mul (x y : PyFloat) : PyFloat := ⟨x.num * y.num, x.den * y.den⟩

/-- Float division by a positive integer (exact). -/
def PyFloat.divNat (x : PyFloat) (n : Nat) : PyFloat := ⟨x.num, x.den * n⟩

/-- The rational value of a `PyFloat`. -/
def PyFloat.toRat (x : PyFloat) : ℚ := (x.num : ℚ) / (x.den : ℚ)

/-- The integer value of a digit string, as a float. -/
def digitsValS (s : String) : PyFloat := ⟨(digitsNat s.data : Int), 1⟩

theorem PyFloat.lt_toRat (x y : PyFloat) (hx : 0 < x.den) (hy : 0 < y.den) :
    x < y ↔ x.toRat < y.toRat := by
  unfold PyFloat.toRat
  rw [div_lt_div_iff (by exact_mod_cast hx) (by exact_mod_cast hy)]
  constructor
  · intro h
    have h0 : x.num * (y.den : Int) < y.num * (x.den : Int) := h
    exact_mod_cast h0
  · intro h
    show x.num * (y.den : Int) < y.num * (x.den : Int)
    exact_mod_cast h

theorem PyFloat.le_toRat (x y : PyFloat) (hx : 0 < x.den) (hy : 0 < y.den) :
    x ≤ y ↔ x.toRat ≤ y.toRat := by
  unfold PyFloat.toRat
  rw [div_le_div_iff (by exact_mod_cast hx) (by exact_mod_cast hy)]
  constructor
  · intro h
    have h0 : x.num * (y.den : Int) ≤ y.num * (x.den : Int) := h
    exact_mod_cast h0
  · intro h
    show x.num * (y.den : Int) ≤ y.num * (x.den : Int)
    exact_mod_cast h

theorem PyFloat.toRat_mul (x y : PyFloat) :
    (x.mul y).toRat = x.toRat * y.toRat := by
  unfold PyFloat.mul PyFloat.toRat
  push_cast
  rw [div_mul_div_comm]

theorem PyFloat.den_mul (x y : PyFloat) : (x.mul y).den = x.den * y.den := rfl

/-- Split a character list at every dot. -/
def splitOnDot : List Char → List (List Char)
  | [] => [[]]
  | c :: rest =>
    if c == '.' then [] :: splitOnDot rest
    else
      match splitOnDot rest with
      | [] => [[c]]
      | h :: t => (c :: h) :: t

/-- Embedding of Python `float(s)` on the numeral shapes the extractor can
feed it (`\d+`, `\d+.`, `\d+.\d+`): the exact decimal value, as a fraction
over a power of ten.  Anything else raises `ValueError` in the source,
i.e. yields `none` here. -/
def parseRat (s : String) : Option PyFloat :=
  match splitOnDot s.data with
  | [w] =>
    if w ≠ [] ∧ w.all Char.isDigit then some ⟨(digitsNat w : Int), 1⟩ else none
  | [w, f] =>
    if w ≠ [] ∧ w.all Char.isDigit ∧ f.all Char.isDigit then
      some ⟨(digitsNat (w ++ f) : Int), 10 ^ f.length⟩
    else none
  | _ => none

end SymptoSeek

namespace SymptoSeek

/-! ## Lab value extraction (`extract_lab_values_from_cbc`, app.py:1013-1333) -/

/-- One extracted lab value, mirroring the result dicts built at
`app.py:1261-1270` (and the fallback dicts at 1299-1308 / 1316-1325). -/
structure LabValue where
  test : String
  value : PyFloat
  unit : String
  status : String
  reference_range : String
  type : String
  context : String
  confidence : String
deriving DecidableEq

/-- Static configuration of one recognized test, mirroring one entry of the
`lab_patterns` dict (`app.py:1018-1162`).  The regex pattern lists are left to
the external matching engine (see `processTest`); `rangeDisplay` is the
Python-formatted `f"{min_range}-{max_range} {unit}"` string. -/
structure LabConfig where
  name : String
  unit : String
  lo : PyFloat
  hi : PyFloat
  type : String
  rangeDisplay : String
deriving DecidableEq

/-- The `lab_patterns` table of `extract_lab_values_from_cbc`
(`app.py:1018-1162`), in dict insertion order; reference ranges as in the
source: (12.0, 15.5), (4.0, 11.0), (4.2, 5.4), (150, 450), (36.0, 46.0),
(27.0, 32.0), (32.0, 36.0), (80.0, 100.0), (70, 100). -/
def lab_patterns : List LabConfig :=
  [ ⟨"HEMOGLOBIN", "g/dL", ⟨12, 1⟩, ⟨155, 10⟩, "CBC", "12.0-15.5 g/dL"⟩,
    ⟨"WBC COUNT", "×10³/μL", ⟨4, 1⟩, ⟨11, 1⟩, "CBC", "4.0-11.0 ×10³/μL"⟩,
    ⟨"RBC COUNT", "×10⁶/μL", ⟨42, 10⟩, ⟨54, 10⟩, "CBC", "4.2-5.4 ×10⁶/μL"⟩,
    ⟨"PLATELET COUNT", "×10³/μL", ⟨150, 1⟩, ⟨450, 1⟩, "CBC", "150-450 ×10³/μL"⟩,
    ⟨"HEMATOCRIT", "%", ⟨36, 1⟩, ⟨46, 1⟩, "CBC", "36.0-46.0 %"⟩,
    ⟨"MCH", "pg", ⟨27, 1⟩, ⟨32, 1⟩, "CBC", "27.0-32.0 pg"⟩,
    ⟨"MCHC", "g/dL", ⟨32, 1⟩, ⟨36, 1⟩, "CBC", "32.0-36.0 g/dL"⟩,
    ⟨"MCV", "fL", ⟨80, 1⟩, ⟨100, 1⟩, "CBC", "80.0-100.0 fL"⟩,
    ⟨"GLUCOSE", "mg/dL", ⟨70, 1⟩, ⟨100, 1⟩, "Chemistry", "70-100 mg/dL"⟩ ]

/-- The status classifier of `extract_lab_values_from_cbc`
(`app.py:1246-1259`), branch order as in the source, with the value and the
threshold products `min_range * 0.7` etc. taken as exact rationals.  This is
an idealization: the source computes in IEEE binary64, whose thresholds sit
one unit in the last place away from the exact decimal products for some
ranges — `statusOfFP` below is the bit-faithful classifier, and the C1
theorems settle the breakpoint claim against it.  The idealized classifier
is used downstream only where no claim depends on threshold rounding; at
the concrete values the theorems below evaluate it on — 5.0 and 11.2
against the HEMOGLOBIN range — the two classifiers agree. -/
def statusOf (value min_range max_range : PyFloat) : String :=
  if value < min_range.mul ⟨7, 10⟩ then "Very Low"
  else if value < min_range then "Low"
  else if value ≤ min_range.mul ⟨11, 10⟩ then "Borderline Low"
  else if max_range.mul ⟨13, 10⟩ ≤ value then "Very High"
  else if max_range < value then "High"
  else if max_range.mul ⟨9, 10⟩ ≤ value then "Borderline High"
  else "Normal"

/-- The per-test sanity bounds of `extract_lab_values_from_cbc`
(`app.py:1219-1230`): `true` means the candidate is discarded. -/
def sanityReject (test_name : String) (value : PyFloat) : Bool :=
  if test_name == "HEMOGLOBIN" then
    decide (value < ⟨3, 1⟩ ∨ (⟨25, 1⟩ : PyFloat) < value)
  else if test_name == "WBC COUNT" || test_name == "RBC COUNT" then
    decide (value < ⟨1, 10⟩ ∨ (⟨50, 1⟩ : PyFloat) < value)
  else if test_name == "PLATELET COUNT" then
    decide (value < ⟨10, 1⟩ ∨ (⟨2000, 1⟩ : PyFloat) < value)
  else if test_name == "MCH" || test_name == "MCHC" || test_name == "MCV" then
    decide (value < ⟨10, 1⟩ ∨ (⟨200, 1⟩ : PyFloat) < value)
  else if test_name == "HEMATOCRIT" then
    decide (value < ⟨10, 1⟩ ∨ (⟨70, 1⟩ : PyFloat) < value)
  else if test_name == "GLUCOSE" then
    decide (value < ⟨30, 1⟩ ∨ (⟨800, 1⟩ : PyFloat) < value)
  else false

/-- The digit-confusable cleanup applied to a captured numeral
(`app.py:1205`): `I`→`1`, `O`→`0`, `l`→`1`. -/
def cleanValueStr (s : String) : String :=
  srep (srep (srep s "I" "1") "O" "0") "l" "1"

/-- Candidate acceptance for one captured group (`app.py:1203-1230`): cleanup,
test-specific special-case corrections (`'345'` for HEMOGLOBIN; the
first-number-of-a-range division for WBC), `float()` parse, sanity bounds.
`none` is the source's `continue` (parse failure or sanity rejection). -/
def acceptValue (test_name : String) (raw : String) : Option PyFloat :=
  let value_str := cleanValueStr raw
  let v? : Option PyFloat :=
    if test_name == "HEMOGLOBIN" && value_str == "345" then
      parseRat "34.5"
    else if test_name == "WBC COUNT" &&
        (occursS "4OdO" value_str || occursS "4000" value_str) then
      match firstDigitsIn value_str with
      | some d => some ((digitsValS d).divNat 1000)
      | none => parseRat value_str
    else parseRat value_str
  match v? with
  | some value => if sanityReject test_name value then none else some value
  | none => none

/-- Builds the result dict of `app.py:1261-1270`.  The source stores the full
match span (`match.group(0).strip()`) as `context`; the matching engine here
only reports captured groups, so the captured numeral stands in for the span
(no claim inspects `context`). -/
def mkLabValue (cfg : LabConfig) (value : PyFloat) (context confidence : String) :
    LabValue :=
  ⟨cfg.name, value, cfg.unit, statusOf value cfg.lo cfg.hi, cfg.rangeDisplay,
    cfg.type, context, confidence⟩

/-- First accepted candidate among the matches of one pattern
(the inner `for match in matches` loop, `app.py:1201-1275`). -/
def firstAcceptedIn (test_name : String) : List String → Option (PyFloat × String)
  | [] => none
  | raw :: rest =>
    match acceptValue test_name raw with
    | some v => some (v, raw)
    | none => firstAcceptedIn test_name rest

/-- Walks the pattern list in order, stopping at the first pattern with an
accepted match (`found` flag, `app.py:1195-1272`); returns the value, its raw
capture, and the index of the successful pattern. -/
def firstPatternHit (test_name : String) :
    Nat → List (List String) → Option (PyFloat × String × Nat)
  | _, [] => none
  | i, ms :: rest =>
    match firstAcceptedIn test_name ms with
    | some (v, raw) => some (v, raw, i)
    | none => firstPatternHit test_name (i + 1) rest

/-- Processing of one test of the `lab_patterns` table (`app.py:1194-1275`).
`matchResults` holds, per configured pattern in order, the group-1 captures
`re.finditer` returns on the preprocessed text.  Confidence is `high` exactly
when the first configured pattern produced the accepted match
(`app.py:1269`; the pattern strings of a test are pairwise distinct, so the
source's string comparison with `config['patterns'][0]` is the index test). -/
def processTest (cfg : LabConfig) (matchResults : List (List String)) :
    List LabValue :=
  match firstPatternHit cfg.name 0 matchResults with
  | none => []
  | some (v, raw, i) =>
    [mkLabValue cfg v raw (if i == 0 then "high" else "medium")]

end SymptoSeek

namespace SymptoSeek

/-- The `ocr_replacements` preprocessing table of
`extract_lab_values_from_cbc` (`app.py:1167-1188`), in dict order. -/
def ocr_replacements : List (String × String) :=
  [ ("II.", "11."), ("I2.", "12."), ("I3.", "13."), ("I4.", "14."),
    ("I5.", "15."), ("I6.", "16."), ("I7.", "17."), ("I8.", "18."),
    ("I9.", "19."), ("I0", "10"), ("O0", "00"), ("O1", "01"), ("O2", "02"),
    ("O3", "03"), ("O4", "04"), ("O5", "05"), ("O6", "06"), ("O7", "07"),
    ("O8", "08"), ("O9", "09") ]

/-- `text_processed = text.upper()` followed by the `ocr_replacements` pass
(`app.py:1166-1191`). -/
def preprocessUpper (text : String) : String :=
  ocr_replacements.foldl (fun t kv => srep t kv.1 kv.2) (pyUpper text)

/-- Python dict assignment `unique_tests[test_name] = lab`: update in place if
the key exists (dicts keep the original position), else append. -/
def updateOrAppend (acc : List LabValue) (lab : LabValue) : List LabValue :=
  if acc.any (fun x => x.test == lab.test) then
    acc.map (fun x => if x.test == lab.test then lab else x)
  else acc ++ [lab]

/-- One step of the duplicate-removal loop (`app.py:1279-1283`): assign iff
the test is new or the incoming confidence is `high`. -/
def dedupStep (acc : List LabValue) (lab : LabValue) : List LabValue :=
  if !(acc.any fun x => x.test == lab.test) || lab.confidence == "high" then
    updateOrAppend acc lab
  else acc

/-- The duplicate-removal pass over all raw extractions (`app.py:1277-1283`);
the result stands for `list(unique_tests.values())`. -/
def dedupLabs (labs : List LabValue) : List LabValue :=
  labs.foldl dedupStep []

def hasTest (labs : List LabValue) (name : String) : Bool :=
  labs.any (fun v => v.test == name)

/-- The CBC context keywords of the fallback trigger (`app.py:1286`). -/
def cbcContextTerms : List String :=
  ["HEMOGLOBIN", "HemcJ", "WBC", "CBC", "BLOOD"]

/-- The hemoglobin fallback dict (`app.py:1299-1308`); status by direct
comparison against the range endpoints 12.0 / 15.5. -/
def hbFallbackEntry (value_str : String) : LabValue :=
  ⟨"HEMOGLOBIN", (digitsValS value_str).divNat 10, "g/dL",
    if (digitsValS value_str).divNat 10 < ⟨12, 1⟩ then "Low"
    else if (digitsValS value_str).divNat 10 ≤ ⟨155, 10⟩ then "Normal"
    else "High",
    "12.0-15.5 g/dL", "CBC", "Fallback extraction from: " ++ value_str,
    "medium-fallback"⟩

/-- The WBC fallback dict (`app.py:1316-1325`); status by direct comparison
against the range endpoints 4.0 / 11.0. -/
def wbcFallbackEntry (value_str : String) : LabValue :=
  ⟨"WBC COUNT", (digitsValS value_str).divNat 1000, "×10³/μL",
    if (digitsValS value_str).divNat 1000 < ⟨4, 1⟩ then "Low"
    else if (digitsValS value_str).divNat 1000 ≤ ⟨11, 1⟩ then "Normal"
    else "High",
    "4.0-11.0 ×10³/μL", "CBC", "Fallback extraction from: " ++ value_str,
    "medium-fallback"⟩

/-- The HEMOGLOBIN half of the fallback block (`app.py:1292-1308`): the
first `\b(\d{3})\b` match may become a HEMOGLOBIN entry, only when no
HEMOGLOBIN entry exists, its first digit is `3` or `1`
(`value_str.startswith`), and the value/10 lies in [8.0, 20.0]. -/
def hbFallbackPart (unique_tests : List LabValue) (text_processed : String) :
    List LabValue :=
  match firstDigitRunLen text_processed 3 3 with
  | some value_str =>
    if !(hasTest unique_tests "HEMOGLOBIN") then
      if pyStartsWith value_str "3" || pyStartsWith value_str "1" then
        if (⟨8, 1⟩ : PyFloat) ≤ (digitsValS value_str).divNat 10 ∧
            (digitsValS value_str).divNat 10 ≤ ⟨20, 1⟩ then
          [hbFallbackEntry value_str]
        else []
      else []
    else []
  | none => []

/-- The WBC half of the fallback block (`app.py:1310-1325`): the first
`\b(\d{4,5})\b` match may become a WBC COUNT entry, only when no WBC COUNT
entry exists and the value/1000 lies in [1.0, 20.0]. -/
def wbcFallbackPart (unique_tests : List LabValue) (text_processed : String) :
    List LabValue :=
  match firstDigitRunLen text_processed 4 5 with
  | some value_str =>
    if !(hasTest unique_tests "WBC COUNT") then
      if (⟨1, 1⟩ : PyFloat) ≤ (digitsValS value_str).divNat 1000 ∧
          (digitsValS value_str).divNat 1000 ≤ ⟨20, 1⟩ then
        [wbcFallbackEntry value_str]
      else []
    else []
  | none => []

/-- The `fallback_values` list built by the fallback block
(`app.py:1290-1325`). -/
def fallbackValues (unique_tests : List LabValue) (text_processed : String) :
    List LabValue :=
  hbFallbackPart unique_tests text_processed ++
    wbcFallbackPart unique_tests text_processed

/-- `for fallback in fallback_values: if fallback['test'] not in unique_tests:
unique_tests[fallback['test']] = fallback` (`app.py:1328-1330`). -/
def addFallbacks (unique_tests fvs : List LabValue) : List LabValue :=
  fvs.foldl
    (fun acc f => if !(hasTest acc f.test) then acc ++ [f] else acc) unique_tests

/-- `extract_lab_values_from_cbc` (`app.py:1013-1333`).  `matchResults` holds,
per table entry and per configured pattern, the group-1 captures the regex
engine finds on `preprocessUpper text`; everything downstream of the regex
calls (candidate cleanup and acceptance, de-duplication, fallback trigger and
fallback scans) is computed for real. -/
def extract_lab_values_from_cbc (text : String)
    (matchResults : List (List (List String))) : List LabValue :=
  let text_processed := preprocessUpper text
  let lab_values :=
    (lab_patterns.zip matchResults).foldl
      (fun acc p => acc ++ processTest p.1 p.2) []
  let unique_tests := dedupLabs lab_values
  if unique_tests.length < 3 &&
      cbcContextTerms.any (fun term => occursS term text_processed) then
    addFallbacks unique_tests (fallbackValues unique_tests text_processed)
  else unique_tests

end SymptoSeek

namespace SymptoSeek

/-! ## Report analysis (`analyze_medical_text_enhanced`, app.py:1335-1577) -/

def stripTrailingZeros (s : String) : String :=
  String.mk (s.data.reverse.dropWhile (· == '0')).reverse

def padZeros (s : String) (k : Nat) : String :=
  String.mk (List.replicate (k - s.length) '0') ++ s

/-- Renders the decimal values this pipeline produces the way Python repr
prints the corresponding floats inside f-strings (e.g. `11.2` → `"11.2"`,
`5` → `"5.0"`); used only to build display strings no claim inspects. -/
def ratRepr (q : PyFloat) : String :=
  if q.den == 1 then toString q.num ++ ".0"
  else
    match (List.range 13).find? (fun k => 10 ^ k % q.den == 0) with
    | some k =>
      let scaled := q.num.toNat * 10 ^ k / q.den
      let frac := stripTrailingZeros (padZeros (toString (scaled % 10 ^ k)) k)
      toString (scaled / 10 ^ k) ++ "." ++ (if frac == "" then "0" else frac)
    | none => toString q.num ++ "/" ++ toString q.den

/-- A detected-condition record (`app.py:1463-1502`). -/
structure MedicalCondition where
  condition : String
  severity : String
  evidence : String
deriving DecidableEq

/-- The abnormal-value filter used for findings and summary
(`app.py:1427`, `app.py:1548`). -/
def abnormalLabs (labs : List LabValue) : List LabValue :=
  labs.filter fun v =>
    !(v.status == "Normal" || v.status == "Borderline Low" ||
      v.status == "Borderline High")

/-- The findings list (`app.py:1430-1431`); empty when nothing is abnormal. -/
def findingsOf (labs : List LabValue) : List String :=
  (abnormalLabs labs).map fun v =>
    v.test ++ ": " ++ ratRepr v.value ++ " " ++ v.unit ++ " (" ++ v.status ++ ")"

/-- The urgency / priority-level derivation from extracted values
(`app.py:1421-1445`), as the pair `(urgency, priority_level)`.  When
`lab_values` is empty the source never binds `critical_values` and
`moderate_values`; the later reference raises `NameError`, the `except` at
line 1447 swallows it, and the defaults `("routine", "routine")` survive. -/
def urgencyFromLabs (labs : List LabValue) : String × String :=
  if labs.isEmpty then ("routine", "routine")
  else
    let critical_values := labs.filter fun v =>
      v.status == "Very Low" || v.status == "Very High"
    let moderate_values := labs.filter fun v =>
      v.status == "Low" || v.status == "High"
    if !critical_values.isEmpty then ("high", "critical")
    else if !moderate_values.isEmpty then ("moderate", "moderate")
    else ("routine", "routine")

/-- First lab value whose test name contains `sub` — the source builds the
full filtered list and then takes element 0 (`app.py:1455-1461` and
analogues). -/
def firstLabWith (sub : String) (labs : List LabValue) : Option LabValue :=
  (labs.filter fun v => occursS sub (pyUpper v.test)).head?

/-- The anemia rule (`app.py:1454-1467`): first HEMOGLOBIN-matching value,
status Low / Very Low, severity Severe iff Very Low. -/
def anemiaRule (labs : List LabValue) : List MedicalCondition :=
  match firstLabWith "HEMOGLOBIN" labs with
  | some hgb =>
    if hgb.status == "Low" || hgb.status == "Very Low" then
      [⟨"Possible Anemia",
        if hgb.status == "Very Low" then "Severe" else "Moderate",
        "Hemoglobin: " ++ ratRepr hgb.value ++ " " ++ hgb.unit⟩]
    else []
  | none => []

/-- The infection/inflammation rule (`app.py:1469-1482`): first WBC-matching
value, status High / Very High. -/
def infectionRule (labs : List LabValue) : List MedicalCondition :=
  match firstLabWith "WBC" labs with
  | some wbc =>
    if wbc.status == "High" || wbc.status == "Very High" then
      [⟨"Possible Infection/Inflammation", "Moderate",
        "WBC Count: " ++ ratRepr wbc.value ++ " " ++ wbc.unit⟩]
    else []
  | none => []

/-- The platelet rules (`app.py:1484-1503`): first PLATELET-matching value,
thrombocytopenia on Low / Very Low, thrombocytosis on High / Very High. -/
def plateletRule (labs : List LabValue) : List MedicalCondition :=
  match firstLabWith "PLATELET" labs with
  | some plt =>
    if plt.status == "Low" || plt.status == "Very Low" then
      [⟨"Thrombocytopenia (Low Platelets)", "Moderate",
        "Platelet Count: " ++ ratRepr plt.value ++ " " ++ plt.unit⟩]
    else if plt.status == "High" || plt.status == "Very High" then
      [⟨"Thrombocytosis (High Platelets)", "Moderate",
        "Platelet Count: " ++ ratRepr plt.value ++ " " ++ plt.unit⟩]
    else []
  | none => []

/-- The condition-assessment rules (`app.py:1451-1505`), in source order:
anemia from HEMOGLOBIN, infection/inflammation from WBC, thrombocytopenia /
thrombocytosis from PLATELET; each rule reads only the first matching value
and is skipped when the test is absent. -/
def detectConditions (labs : List LabValue) : List MedicalCondition :=
  anemiaRule labs ++ infectionRule labs ++ plateletRule labs

/-- The recommendation generator (`app.py:1510-1540`). -/
def recommendationsOf (urgency : String) (conds : List MedicalCondition) :
    List String :=
  (if urgency == "high" then
    ["Consult with your healthcare provider immediately",
     "Consider urgent medical evaluation",
     "Monitor symptoms closely"]
  else if urgency == "moderate" then
    ["Schedule appointment with your healthcare provider within 1-2 weeks",
     "Discuss these findings with your doctor",
     "May need additional testing or monitoring"]
  else
    ["Continue routine healthcare schedule",
     "Bring this report to your next doctor's appointment",
     "Maintain healthy lifestyle habits"]) ++
  conds.foldl
    (fun acc c =>
      if occursS "Anemia" c.condition then
        acc ++ ["Consider iron-rich diet and iron supplementation evaluation"]
      else if occursS "Infection" c.condition then
        acc ++ ["Monitor for fever, fatigue, or other infection symptoms"]
      else acc) []

/-- The AI-summary generator (`app.py:1545-1564`). -/
def summaryOf (labs : List LabValue) (urgency : String) : String :=
  if !labs.isEmpty then
    if (abnormalLabs labs).length == 0 then
      "All " ++ toString labs.length ++
        " lab parameters are within normal ranges. Continue routine monitoring."
    else
      let abnormal_tests := ((abnormalLabs labs).map (·.test)).take 3
      if urgency == "high" then
        "⚠️ CRITICAL CONCERN: This report shows significant abnormal findings requiring immediate medical attention. Key concerns: " ++
          String.intercalate ", " abnormal_tests ++ "."
      else if urgency == "moderate" then
        "⚠️ MODERATE CONCERN: This report shows abnormal findings that need medical follow-up. Key concerns: " ++
          String.intercalate ", " abnormal_tests ++ "."
      else
        "📋 ROUTINE: This appears to be a standard medical report. Some values may need routine monitoring."
  else
    "Medical report processed. Please consult with your healthcare provider for interpretation."

/-- The report-type detection of `analyze_medical_text_enhanced`
(`app.py:1404-1413`), first matching category wins. -/
def reportTypeOf (text_lower : String) : String :=
  if ["complete blood count", "cbc", "hemoglobin", "wbc", "rbc"].any
      (fun term => occursS term text_lower) then "Complete Blood Count (CBC)"
  else if ["chemistry", "glucose", "cholesterol", "creatinine"].any
      (fun term => occursS term text_lower) then "Blood Chemistry Panel"
  else if ["lipid", "cholesterol", "triglyceride"].any
      (fun term => occursS term text_lower) then "Lipid Profile"
  else if ["thyroid", "tsh", "t3", "t4"].any
      (fun term => occursS term text_lower) then "Thyroid Function Test"
  else "Laboratory Report"

/-- The keyword indicators of the separately computed lexical priority
(`intelligent_medical_summarization`, `app.py:993-996`). -/
def critical_indicators : List String :=
  ["critical", "severe", "urgent", "emergency", "acute", "immediate",
   "abnormal", "elevated", "concerning", "significant"]

/-- The lexical priority assessment (`app.py:998-1005`): number of indicator
keywords present in the lowercased text, bucketed at ≥3 / ≥1. -/
def aiPriorityLevel (text_lower : String) : String :=
  let high_priority_count :=
    (critical_indicators.filter fun ind => occursS ind text_lower).length
  if 3 ≤ high_priority_count then "critical"
  else if 1 ≤ high_priority_count then "moderate"
  else "routine"

/-- The analysis object of `analyze_medical_text_enhanced`
(`app.py:1337-1354`).  The `ai_insights` sub-dict is represented by the one
piece of it this development reasons about: the lexical `priority_level`
computed by `intelligent_medical_summarization` (whose optional NLP models
are out-of-scope external collaborators); `vital_signs` stays an empty dict
throughout the source and is omitted. -/
structure Analysis where
  summary : String
  findings : List String
  recommendations : List String
  urgency : String
  follow_up : List String
  lab_values : List LabValue
  detected_conditions : List MedicalCondition
  medications : List String
  lab_name : String
  doctor_name : String
  patient_name : String
  report_date : String
  report_type : String
  priority_level : String
  ai_insights_priority : Option String
deriving DecidableEq

/-- The freshly initialized analysis dict (`app.py:1337-1354`). -/
def defaultAnalysis : Analysis :=
  ⟨"", [], [], "routine", [], [], [], [], "Unknown Lab", "Unknown Doctor",
    "Unknown Patient", "Unknown Date", "Medical Report", "routine", none⟩

/-- Results of the header-metadata regex searches (`app.py:1364-1401`),
supplied by the external regex engine: the first matching group-1 capture of
the lab-name, doctor-name and patient-name pattern families, when any. -/
structure HeaderMatches where
  labName : Option String := none
  doctorName : Option String := none
  patientName : Option String := none
deriving DecidableEq

/-- `analyze_medical_text_enhanced` (`app.py:1335-1577`).  `hm` carries the
header regex-search results and `matchResults` the per-test per-pattern
captures (see `extract_lab_values_from_cbc`); the guard, report type,
extraction post-processing, urgency, conditions, recommendations, summary and
lexical priority are computed for real. -/
def analyze_medical_text_enhanced (text : String) (hm : HeaderMatches)
    (matchResults : List (List (List String))) : Analysis :=
  -- `if not text or len(text.strip()) < 10: return analysis` (app.py:1356);
  -- the empty string also has stripped length 0 < 10.
  if (pyStrip text).length < 10 then defaultAnalysis
  else
    let text_lower := pyLower text
    let lab_name := match hm.labName with
      | some s => pyStrip s
      | none => "Unknown Lab"
    let doctor_name := match hm.doctorName with
      | some s => "Dr. " ++ pyStrip s
      | none => "Unknown Doctor"
    let patient_name := match hm.patientName with
      | some s => if 2 ≤ countWords (pyStrip s) then pyStrip s else "Unknown Patient"
      | none => "Unknown Patient"
    let labs := extract_lab_values_from_cbc text matchResults
    let urg := urgencyFromLabs labs
    let conds := detectConditions labs
    ⟨summaryOf labs urg.1, findingsOf labs, recommendationsOf urg.1 conds,
      urg.1, [], labs, conds, [], lab_name, doctor_name, patient_name,
      "Unknown Date", reportTypeOf text_lower, urg.2,
      some (aiPriorityLevel text_lower)⟩

end SymptoSeek

namespace SymptoSeek

/-! ## OCR text normalization (`clean_and_normalize_ocr_text`, app.py:719-840) -/

/-- `re.sub(r'\s+', ' ', text.strip())` (`app.py:725`): trim, then collapse
every whitespace run to a single space.  The following
`re.sub(r'\n+', '\n', ...)` (`app.py:726`) is the identity afterwards, since
no newline survives the first substitution. -/
def squeezeWS : List Char → List Char
  | [] => []
  | [c] => if c.isWhitespace then [' '] else [c]
  | c :: d :: rest =>
    if c.isWhitespace then
      if d.isWhitespace then squeezeWS (d :: rest) else ' ' :: squeezeWS (d :: rest)
    else c :: squeezeWS (d :: rest)

/-- The literal `corrections` table of `clean_and_normalize_ocr_text`
(`app.py:729-806`), in dict insertion order. -/
def corrections : List (String × String) :=
  [ ("HemcJ", "HEMOGLOBIN"), ("WOC counil", "WBC COUNT"), ("cqunT", "COUNT"),
    ("ornaRkcuni", "NORMAL RANGE"), ("miucltm", "NORMAL"), ("Pocicd", "PACKED"),
    ("Vollteuc", "VOLUME"), ("Aae", "MEAN"), ("Vch", "MCH"), ("VCHC", "MCHC"),
    ("WdC", "WBC"), ("counil", "COUNT"), ("CumtimI", "CUMM"),
    ("DIFFeRFHTI", "DIFFERENTIAL"), ("CouhT", "COUNT"),
    ("cwarcJhi", "NEUTROPHILS"), ("Lymdnocyias", "LYMPHOCYTES"),
    ("Loaingohile", "EOSINOPHILS"), ("Yunts", "MONOCYTES"),
    ("Kasophil", "BASOPHILS"), ("PLATELOT", "PLATELET"), ("plntek", "PLATELET"),
    ("Isdoc", "NORMAL"), ("aeidatllt", "ADEQUATE"),
    ("Ingrnumenrr", "INSTRUMENT"), ("nutomad", "AUTOMATED"),
    ("Vindray", "MANUAL"), ("Iunt", "COUNT"),
    ("Indcrpretaeion", "INTERPRETATION"), ("Felht", "RESULT"),
    ("contvn", "CONFIRMS"), ("Aunonio", "LOCATION"),
    ("Requteled", "REQUESTED"), ("Puodr", "PATIENT"), ("Culaled", "COLLECTED"),
    ("Rtpeled", "REPORTED"), ("PYCloni", "LAB"),
    ("Investiqation", "INVESTIGATION"), ("Ult", "RESULT"), ("Saple", "SAMPLE"),
    ("Puunary", "PRIMARY"),
    ("345", "34.5"), ("4OdO-tOOO", "4000-11000"), ("1so0n0", "150000"),
    ("41CO00", "410000"), ("O7I2345678", ""), ("OI73456789", ""),
    ("Dr. LOGY", "DRLOGY"), ("LOGY PATHOLOGY", "DRLOGY PATHOLOGY"),
    ("PATH0L0GY", "PATHOLOGY"), ("LAd", "LAB"),
    ("HIREM", "HIREN"), ("HIPEN", "HIREN"), ("pateI", "PATEL"),
    ("PatheI", "PATEL"),
    ("g/dl", "g/dL"), ("g/Dl", "g/dL"), ("gldl", "g/dL"), ("gldL", "g/dL"),
    ("μl", "μL"), ("ul", "μL"), ("µl", "μL") ]

/-- `for old, new in corrections.items(): text = text.replace(old, new)`
(`app.py:808-810`). -/
def applyCorrections (s : String) : String :=
  corrections.foldl (fun t kv => srep t kv.1 kv.2) s

/-- Steps 1-2 of `clean_and_normalize_ocr_text` (`app.py:721-810`):
whitespace collapse followed by the literal substitution pass.  Steps 3-5
are regex passes handled by the external engine; `regexPassesInert` below
is a checked sufficient condition for all of them to leave a string
unchanged, so on a string it certifies, `literalNormalizePass` computes the
full normalizer output. -/
def literalNormalizePass (text : String) : String :=
  applyCorrections (String.mk (squeezeWS (pyStrip text).data))

/-- A word run (lower-cased) that starts like one of the `\b`-anchored
alternations of `medical_patterns` (`app.py:815-824, 829`): every
alternative of those patterns begins, case-insensitively, with `he`
(HEMOGLOBIN forms), `w` (WBC forms), `r` (RBC and REFERENCE forms), `pl`
(PLATELET forms), `dr` (DRLOGY and doctor-name forms), `m` or `v` (MCH /
MCHC / MCV / Vch / VCHC forms); a match of such a pattern must begin at a
word boundary followed by those letters, i.e. at a word run starting with
them. -/
def forbiddenHead (r : String) : Bool :=
  pyStartsWith r "w" || pyStartsWith r "r" || pyStartsWith r "m" ||
    pyStartsWith r "v" || pyStartsWith r "he" || pyStartsWith r "pl" ||
    pyStartsWith r "dr"

/-- A lower-cased word run matched by the `\b(?:PATH[O0]L[O0]GY|PATHOLOGY)\b`
rule (`app.py:820`) under `re.IGNORECASE`: both alternatives are single
fixed words, so with both boundaries the matches are exactly the whole word
runs spelling one of the four `O`/`0` variants. -/
def pathologyVariant (r : String) : Bool :=
  r == "pathology" || r == "path0logy" || r == "pathol0gy" ||
    r == "path0l0gy"

/-- A checked sufficient condition for steps 3-5 of
`clean_and_normalize_ocr_text` (`app.py:812-838`) to leave `s` unchanged:
(i) `s` contains no digit, so the three decimal-fix rules (`app.py:826-828`)
and the two spacing fixes requiring a digit (`app.py:836-837`) cannot
match; (ii) no word run of `s` begins, case-insensitively, with a head
letter sequence of the `\b`-anchored name alternations (`app.py:815-824`)
or of the `re.IGNORECASE` doctor-name rule (`app.py:829`), so none of those
can match; (iii) every word run that case-insensitively spells a
`PATH[O0]L[O0]GY` variant is literally `PATHOLOGY`, so the rule at
`app.py:820` replaces each of its matches by itself; and (iv) `s` has no
substring `Dr`, so the case-sensitive doctor-name fix (`app.py:838`) cannot
match. -/
def regexPassesInert (s : String) : Bool :=
  (s.data.all fun c => !c.isDigit) &&
    ((wordRuns s.data).all fun r =>
      !(forbiddenHead (String.mk (r.map pyCharLower))) &&
        (!(pathologyVariant (String.mk (r.map pyCharLower))) ||
          String.mk r == "PATHOLOGY")) &&
    !(occursS "Dr" s)

end SymptoSeek

namespace SymptoSeek

/-! ## C1 — status breakpoints -/

set_option maxRecDepth 1000000

/-! ### IEEE binary64 model

The source compares Python floats (IEEE binary64).  A float value is held
here as the exact dyadic rational it denotes, in a `PyFloat`; `fpOfRat`
rounds an exact positive rational to the nearest binary64 value (ties to
even), which is what Python `float()` of a decimal numeral produces and how
every arithmetic result is rounded.  All values in scope lie well inside
`2^70`, so subnormals, overflow and NaN never arise and rounding of normal
values is the whole story. -/

/-- `2^e` as an exact value. -/
def pow2 (e : Int) : PyFloat :=
  if 0 ≤ e then ⟨2 ^ e.toNat, 1⟩ else ⟨1, 2 ^ (-e).toNat⟩

/-- The binade of a positive value: the `e` with `2^e ≤ q < 2^(e+1)`
(searched over `[-70, 70]`, which covers every value in scope). -/
def floorLog2 (q : PyFloat) : Int :=
  match (List.range 141).find? (fun i =>
      decide (pow2 ((i : Int) - 70) ≤ q) &&
      decide (q < pow2 ((i : Int) - 69))) with
  | some i => (i : Int) - 70
  | none => 0

/-- Round a positive rational to the nearest binary64 value (round half to
even): scale into `[2^52, 2^53)`, take integer quotient and remainder, round
on the remainder with ties to even, and carry into the next binade when the
mantissa overflows. -/
def fpRoundPos (q : PyFloat) : PyFloat :=
  let e := floorLog2 q
  let n := q.num.toNat
  let a := if 52 < e then n else n * 2 ^ (52 - e).toNat
  let b := if 52 < e then q.den * 2 ^ (e - 52).toNat else q.den
  let m0 := a / b
  let r := a % b
  let m :=
    if 2 * r < b then m0
    else if b < 2 * r then m0 + 1
    else if m0 % 2 == 0 then m0 else m0 + 1
  let m2 := if m == 2 ^ 53 then 2 ^ 52 else m
  let e2 := if m == 2 ^ 53 then e + 1 else e
  if 52 ≤ e2 then ⟨(m2 * 2 ^ (e2 - 52).toNat : Nat), 1⟩
  else ⟨(m2 : Nat), 2 ^ (52 - e2).toNat⟩

/-- The binary64 value of an exact nonnegative rational: Python `float()`
of a decimal numeral, or the rounding step of a float operation. -/
def fpOfRat (q : PyFloat) : PyFloat :=
  if q.num ≤ 0 then ⟨0, 1⟩ else fpRoundPos q

/-- IEEE binary64 multiplication of two exactly-held float values: the
exact product, rounded. -/
def fmul (x y : PyFloat) : PyFloat := fpOfRat (x.mul y)

/-- The binary64 value of the literal `0.7` (`app.py:1246`). -/
def fp07 : PyFloat := fpOfRat ⟨7, 10⟩

/-- The binary64 value of the literal `0.9` (`app.py:1256`). -/
def fp09 : PyFloat := fpOfRat ⟨9, 10⟩

/-- The binary64 value of the literal `1.1` (`app.py:1250`). -/
def fp11 : PyFloat := fpOfRat ⟨11, 10⟩

/-- The binary64 value of the literal `1.3` (`app.py:1252`). -/
def fp13 : PyFloat := fpOfRat ⟨13, 10⟩

/-- The status classifier of `extract_lab_values_from_cbc`
(`app.py:1246-1259`) with the source's float semantics: `value`, `lo` and
`hi` are binary64 values, each threshold is the IEEE product of the range
endpoint with the binary64 value of the literal factor, and float
comparison compares the denoted values exactly. -/
def statusOfFP (value lo hi : PyFloat) : String :=
  if value < fmul lo fp07 then "Very Low"
  else if value < lo then "Low"
  else if value ≤ fmul lo fp11 then "Borderline Low"
  else if fmul hi fp13 ≤ value then "Very High"
  else if hi < value then "High"
  else if fmul hi fp09 ≤ value then "Borderline High"
  else "Normal"

/-- The binary64 value of the HEMOGLOBIN range literal `12.0`
(`app.py:1021`). -/
def fpHemoLo : PyFloat := fpOfRat ⟨12, 1⟩

/-- The binary64 value of the HEMOGLOBIN range literal `15.5`
(`app.py:1021`). -/
def fpHemoHi : PyFloat := fpOfRat ⟨155, 10⟩

/-- The status assignment exactly as the claim lists it (seven multiplicative
breakpoint ranges, in the claim's order Very Low, Low, Borderline Low,
Normal, Borderline High, High, Very High, each range written two-sided as in
the claim text). -/
def specStatusClaim (v lo hi : PyFloat) : String :=
  if v < lo.mul ⟨7, 10⟩ then "Very Low"
  else if lo.mul ⟨7, 10⟩ ≤ v ∧ v < lo then "Low"
  else if lo ≤ v ∧ v ≤ lo.mul ⟨11, 10⟩ then "Borderline Low"
  else if lo.mul ⟨11, 10⟩ < v ∧ v < hi.mul ⟨9, 10⟩ then "Normal"
  else if hi.mul ⟨9, 10⟩ ≤ v ∧ v ≤ hi then "Borderline High"
  else if hi < v ∧ v < hi.mul ⟨13, 10⟩ then "High"
  else "Very High"

/-- Over ℚ, the source's branch order (Very High checked before High before
Borderline High) assigns exactly the statuses of the claim's list, for any
nonnegative range endpoints — including ranges where `1.1·lo > 0.9·hi`. -/
theorem ratStatusCascadeEq (v lo hi : ℚ) (hlo : 0 ≤ lo) (hhi : 0 ≤ hi) :
    (if v < lo * (7/10) then "Very Low"
     else if v < lo then "Low"
     else if v ≤ lo * (11/10) then "Borderline Low"
     else if hi * (13/10) ≤ v then "Very High"
     else if hi < v then "High"
     else if hi * (9/10) ≤ v then "Borderline High"
     else "Normal") =
    (if v < lo * (7/10) then "Very Low"
     else if lo * (7/10) ≤ v ∧ v < lo then "Low"
     else if lo ≤ v ∧ v ≤ lo * (11/10) then "Borderline Low"
     else if lo * (11/10) < v ∧ v < hi * (9/10) then "Normal"
     else if hi * (9/10) ≤ v ∧ v ≤ hi then "Borderline High"
     else if hi < v ∧ v < hi * (13/10) then "High"
     else "Very High") := by
  rcases lt_or_le v (lo * (7/10)) with h1 | h1
  · rw [if_pos h1, if_pos h1]
  · have h1' : ¬ v < lo * (7/10) := not_lt.2 h1
    rcases lt_or_le v lo with h2 | h2
    · rw [if_neg h1', if_pos h2, if_neg h1', if_pos ⟨h1, h2⟩]
    · have h2' : ¬ v < lo := not_lt.2 h2
      have hg2 : ¬ (lo * (7/10) ≤ v ∧ v < lo) := fun hc => h2' hc.2
      rcases le_or_lt v (lo * (11/10)) with h3 | h3
      · rw [if_neg h1', if_neg h2', if_pos h3, if_neg h1', if_neg hg2,
          if_pos ⟨h2, h3⟩]
      · have h3' : ¬ v ≤ lo * (11/10) := not_le.2 h3
        have hg3 : ¬ (lo ≤ v ∧ v ≤ lo * (11/10)) := fun hc => h3' hc.2
        have hvpos : 0 < v :=
          lt_of_le_of_lt (mul_nonneg hlo (by norm_num)) h3
        rcases lt_or_le v (hi * (9/10)) with h4 | h4
        · have hnVH : ¬ hi * (13/10) ≤ v := by intro hc; linarith
          have hnH : ¬ hi < v := by intro hc; linarith
          have hnBH : ¬ hi * (9/10) ≤ v := not_le.2 h4
          rw [if_neg h1', if_neg h2', if_neg h3', if_neg hnVH, if_neg hnH,
            if_neg hnBH, if_neg h1', if_neg hg2, if_neg hg3, if_pos ⟨h3, h4⟩]
        · have hg4 : ¬ (lo * (11/10) < v ∧ v < hi * (9/10)) :=
            fun hc => (not_lt.2 h4) hc.2
          rcases le_or_lt v hi with h5 | h5
          · have hhipos : 0 < hi := lt_of_lt_of_le hvpos h5
            have hnVH : ¬ hi * (13/10) ≤ v := by intro hc; linarith
            have hnH : ¬ hi < v := not_lt.2 h5
            rw [if_neg h1', if_neg h2', if_neg h3', if_neg hnVH, if_neg hnH,
              if_pos h4, if_neg h1', if_neg hg2, if_neg hg3, if_neg hg4,
              if_pos ⟨h4, h5⟩]
          · have hg5 : ¬ (hi * (9/10) ≤ v ∧ v ≤ hi) :=
              fun hc => (not_le.2 h5) hc.2
            rcases lt_or_le v (hi * (13/10)) with h6 | h6
            · have hnVH : ¬ hi * (13/10) ≤ v := not_le.2 h6
              rw [if_neg h1', if_neg h2', if_neg h3', if_neg hnVH, if_pos h5,
                if_neg h1', if_neg hg2, if_neg hg3, if_neg hg4, if_neg hg5,
                if_pos ⟨h5, h6⟩]
            · have hg6 : ¬ (hi < v ∧ v < hi * (13/10)) :=
                fun hc => (not_lt.2 h6) hc.2
              rw [if_neg h1', if_neg h2', if_neg h3', if_pos h6, if_neg h1',
                if_neg hg2, if_neg hg3, if_neg hg4, if_neg hg5, if_neg hg6]

/-- In the exact-rational idealization, the source's branch order assigns
precisely the claim's breakpoint statuses; the C1 theorems below show this
equivalence does not survive the source's binary64 threshold rounding. -/
theorem statusOf_eq_specStatusClaim (v lo hi : PyFloat) (hv : 0 < v.den)
    (hlo : 0 < lo.den) (hhi : 0 < hi.den) (hlo0 : 0 ≤ lo.toRat)
    (hhi0 : 0 ≤ hi.toRat) : statusOf v lo hi = specStatusClaim v lo hi := by
  have h10 : (0 : Nat) < 10 := by norm_num
  have c7 : (⟨7, 10⟩ : PyFloat).toRat = 7/10 := by
    unfold PyFloat.toRat; norm_num
  have c9 : (⟨9, 10⟩ : PyFloat).toRat = 9/10 := by
    unfold PyFloat.toRat; norm_num
  have c11 : (⟨11, 10⟩ : PyFloat).toRat = 11/10 := by
    unfold PyFloat.toRat; norm_num
  have c13 : (⟨13, 10⟩ : PyFloat).toRat = 13/10 := by
    unfold PyFloat.toRat; norm_num
  simp only [statusOf, specStatusClaim,
    PyFloat.lt_toRat v (lo.mul ⟨7, 10⟩) hv (Nat.mul_pos hlo h10),
    PyFloat.lt_toRat v lo hv hlo,
    PyFloat.le_toRat v (lo.mul ⟨11, 10⟩) hv (Nat.mul_pos hlo h10),
    PyFloat.le_toRat (hi.mul ⟨13, 10⟩) v (Nat.mul_pos hhi h10) hv,
    PyFloat.lt_toRat hi v hhi hv,
    PyFloat.le_toRat (hi.mul ⟨9, 10⟩) v (Nat.mul_pos hhi h10) hv,
    PyFloat.le_toRat (lo.mul ⟨7, 10⟩) v (Nat.mul_pos hlo h10) hv,
    PyFloat.le_toRat lo v hlo hv,
    PyFloat.lt_toRat (lo.mul ⟨11, 10⟩) v (Nat.mul_pos hlo h10) hv,
    PyFloat.lt_toRat v (hi.mul ⟨9, 10⟩) hv (Nat.mul_pos hhi h10),
    PyFloat.le_toRat v hi hv hhi,
    PyFloat.lt_toRat v (hi.mul ⟨13, 10⟩) hv (Nat.mul_pos hhi h10),
    PyFloat.toRat_mul, c7, c9, c11, c13]
  exact ratStatusCascadeEq v.toRat lo.toRat hi.toRat hlo0 hhi0

/-- C1, counterexample: the claim's exact multiplicative breakpoints fail
under the program's float arithmetic.  The HEMOGLOBIN candidate `13.95` is
accepted by the extractor (it parses and passes the 3-25 sanity bound), and
the claim demands Borderline High for it (`0.9·15.5 = 13.95 ≤ v ≤ 15.5`);
but in binary64 `15.5 * 0.9` rounds to the double just above `13.95`
(`13.95000000000000017763…`), so `13.95 >= 15.5 * 0.9` is `False` in Python
and the source classifies `13.95` as Normal.  Likewise `15.5 * 1.3` rounds
just above `20.15`, so the accepted candidate `20.15` — Very High per the
claim — classifies as High. -/
theorem C1_counterexample :
    acceptValue "HEMOGLOBIN" "13.95" = some ⟨1395, 100⟩ ∧
    statusOfFP (fpOfRat ⟨1395, 100⟩) fpHemoLo fpHemoHi = "Normal" ∧
    specStatusClaim ⟨1395, 100⟩ ⟨12, 1⟩ ⟨155, 10⟩ = "Borderline High" ∧
    statusOfFP (fpOfRat ⟨2015, 100⟩) fpHemoLo fpHemoHi = "High" ∧
    specStatusClaim ⟨2015, 100⟩ ⟨12, 1⟩ ⟨155, 10⟩ = "Very High" :=
  ⟨by decide, by decide, by decide, by decide, by decide⟩

/-- C1, amended: the classifier follows the claim's seven-branch cascade
with the thresholds `0.7·lo`, `1.1·lo`, `1.3·hi`, `0.9·hi` computed in IEEE
binary64, so some effective breakpoints sit one unit in the last place away
from the claim's exact decimal products.  (i) The claim's endpoint sentence
survives the rounding: for every configured test, a value exactly at `lo`
classifies Borderline Low (not Low) and exactly at `hi` Borderline High
(not High).  (ii) For the HEMOGLOBIN range, Borderline High holds exactly
on the float interval from the rounded product `fl(15.5·0.9)` to `15.5`.
(iii) That effective threshold is strictly above the claim's exact
breakpoint `0.9·15.5 = 13.95`. -/
theorem C1_amended_float_breakpoints :
    (∀ cfg ∈ lab_patterns,
      statusOfFP (fpOfRat cfg.lo) (fpOfRat cfg.lo) (fpOfRat cfg.hi) =
        "Borderline Low" ∧
      statusOfFP (fpOfRat cfg.hi) (fpOfRat cfg.lo) (fpOfRat cfg.hi) =
        "Borderline High") ∧
    (∀ v : PyFloat, 0 < v.den →
      (statusOfFP v fpHemoLo fpHemoHi = "Borderline High" ↔
        fmul fpHemoHi fp09 ≤ v ∧ v ≤ fpHemoHi)) ∧
    (⟨155, 10⟩ : PyFloat).mul ⟨9, 10⟩ ≤ (⟨1395, 100⟩ : PyFloat) ∧
    (⟨1395, 100⟩ : PyFloat) < fmul fpHemoHi fp09 := by
  refine ⟨?_, ?_, by decide, by decide⟩
  · intro cfg hcfg
    fin_cases hcfg <;> exact ⟨by decide, by decide⟩
  · intro v hv
    constructor
    · intro h
      unfold statusOfFP at h
      by_cases h1 : v < fmul fpHemoLo fp07
      · rw [if_pos h1] at h
        exact absurd h (by decide)
      rw [if_neg h1] at h
      by_cases h2 : v < fpHemoLo
      · rw [if_pos h2] at h
        exact absurd h (by decide)
      rw [if_neg h2] at h
      by_cases h3 : v ≤ fmul fpHemoLo fp11
      · rw [if_pos h3] at h
        exact absurd h (by decide)
      rw [if_neg h3] at h
      by_cases h4 : fmul fpHemoHi fp13 ≤ v
      · rw [if_pos h4] at h
        exact absurd h (by decide)
      rw [if_neg h4] at h
      by_cases h5 : fpHemoHi < v
      · rw [if_pos h5] at h
        exact absurd h (by decide)
      rw [if_neg h5] at h
      by_cases h6 : fmul fpHemoHi fp09 ≤ v
      · exact ⟨h6, Int.not_lt.mp h5⟩
      · rw [if_neg h6] at h
        exact absurd h (by decide)
    · rintro ⟨h1, h2⟩
      have hb1 := (PyFloat.le_toRat (fmul fpHemoHi fp09) v (by decide) hv).mp h1
      have hb2 := (PyFloat.le_toRat v fpHemoHi hv (by decide)).mp h2
      have c07 : (fmul fpHemoLo fp07).toRat < (fmul fpHemoHi fp09).toRat :=
        (PyFloat.lt_toRat _ _ (by decide) (by decide)).mp (by decide)
      have clo : fpHemoLo.toRat < (fmul fpHemoHi fp09).toRat :=
        (PyFloat.lt_toRat _ _ (by decide) (by decide)).mp (by decide)
      have c11 : (fmul fpHemoLo fp11).toRat < (fmul fpHemoHi fp09).toRat :=
        (PyFloat.lt_toRat _ _ (by decide) (by decide)).mp (by decide)
      have c13 : fpHemoHi.toRat < (fmul fpHemoHi fp13).toRat :=
        (PyFloat.lt_toRat _ _ (by decide) (by decide)).mp (by decide)
      have hn1 : ¬ v < fmul fpHemoLo fp07 := by
        intro hc
        have hc2 := (PyFloat.lt_toRat v _ hv (by decide)).mp hc
        linarith only [hc2, hb1, c07]
      have hn2 : ¬ v < fpHemoLo := by
        intro hc
        have hc2 := (PyFloat.lt_toRat v _ hv (by decide)).mp hc
        linarith only [hc2, hb1, clo]
      have hn3 : ¬ v ≤ fmul fpHemoLo fp11 := by
        intro hc
        have hc2 := (PyFloat.le_toRat v _ hv (by decide)).mp hc
        linarith only [hc2, hb1, c11]
      have hn4 : ¬ fmul fpHemoHi fp13 ≤ v := by
        intro hc
        have hc2 := (PyFloat.le_toRat _ v (by decide) hv).mp hc
        linarith only [hc2, hb2, c13]
      have hn5 : ¬ fpHemoHi < v := by
        intro hc
        have hc2 := (PyFloat.lt_toRat _ v (by decide) hv).mp hc
        linarith only [hc2, hb2]
      unfold statusOfFP
      rw [if_neg hn1, if_neg hn2, if_neg hn3, if_neg hn4, if_neg hn5,
        if_pos h1]

/-- Witness for C1 at concrete inputs: the HEMOGLOBIN configuration is in
the table, so its endpoints classify Borderline Low / Borderline High under
the float semantics, and `14.0` — a value inside the float Borderline High
interval — classifies Borderline High by the amended equivalence. -/
theorem C1_witness :
    statusOfFP (fpOfRat ⟨12, 1⟩) (fpOfRat ⟨12, 1⟩) (fpOfRat ⟨155, 10⟩) =
      "Borderline Low" ∧
    statusOfFP (⟨14, 1⟩ : PyFloat) fpHemoLo fpHemoHi = "Borderline High" :=
  ⟨(C1_amended_float_breakpoints.1
      ⟨"HEMOGLOBIN", "g/dL", ⟨12, 1⟩, ⟨155, 10⟩, "CBC", "12.0-15.5 g/dL"⟩
      (by decide)).1,
    (C1_amended_float_breakpoints.2.1 ⟨14, 1⟩ (by decide)).mpr
      ⟨by decide, by decide⟩⟩

end SymptoSeek

namespace SymptoSeek

set_option maxRecDepth 40000

theorem filter_isEmpty_eq_not_any (p : LabValue → Bool) (l : List LabValue) :
    (l.filter p).isEmpty = !l.any p := by
  induction l with
  | nil => simp
  | cons x xs ih =>
    cases h : p x <;> simp [List.filter_cons, List.any_cons, h, ih]

/-- Closed form of the urgency / priority-level pair: `high`/`critical` when
some value has status Very Low or Very High, else `moderate`/`moderate` when
some value has status Low or High, else `routine`/`routine` (also for the
empty list, via the source's swallowed `NameError`). -/
theorem urgencyFromLabs_eq (labs : List LabValue) :
    urgencyFromLabs labs =
      ((if labs.any (fun v => v.status == "Very Low" || v.status == "Very High")
        then "high"
        else if labs.any (fun v => v.status == "Low" || v.status == "High")
        then "moderate" else "routine"),
       (if labs.any (fun v => v.status == "Very Low" || v.status == "Very High")
        then "critical"
        else if labs.any (fun v => v.status == "Low" || v.status == "High")
        then "moderate" else "routine")) := by
  unfold urgencyFromLabs
  cases labs with
  | nil => simp
  | cons x xs =>
    rw [if_neg (by simp)]
    simp only [filter_isEmpty_eq_not_any, Bool.not_not]
    by_cases h1 :
        ((x :: xs).any fun v => v.status == "Very Low" || v.status == "Very High") = true
    · simp [h1]
    · by_cases h2 :
          ((x :: xs).any fun v => v.status == "Low" || v.status == "High") = true
      · simp [h1, h2]
      · simp [h1, h2]

/-- C2 counterexample input: the honest `re.finditer` captures of the
HEMOGLOBIN pattern family on the preprocessed text
`"HEMOGLOBIN: 5.0 G/DL ROUTINE"`: patterns 1-5 each capture `"5.0"`; the
sixth needs two consecutive digits and the seventh three, so they do not
match; no pattern of the other eight tests matches the text. -/
def mrC2 : List (List (List String)) :=
  [[["5.0"], ["5.0"], ["5.0"], ["5.0"], ["5.0"], [], []]]

/-- C2, counterexample: on text containing a critical-range HEMOGLOBIN (5.0,
status Very Low) and the benign keyword `routine`, the analysis has a lab
value of status Very Low, but its `urgency` field is `"high"`, not
`"critical"` — the claim that the urgency field equals `'critical'` is false
(the source sets `urgency = 'high'` and `priority_level = 'critical'`,
app.py:1437-1439). -/
theorem C2_counterexample :
    ((analyze_medical_text_enhanced "HEMOGLOBIN: 5.0 g/dL routine" {} mrC2).lab_values.any
      fun v => v.status == "Very Low") = true ∧
    (analyze_medical_text_enhanced "HEMOGLOBIN: 5.0 g/dL routine" {} mrC2).urgency ≠
      "critical" ∧
    (analyze_medical_text_enhanced "HEMOGLOBIN: 5.0 g/dL routine" {} mrC2).urgency =
      "high" ∧
    (analyze_medical_text_enhanced "HEMOGLOBIN: 5.0 g/dL routine" {} mrC2).priority_level =
      "critical" := by
  refine ⟨by decide, by decide, by decide, by decide⟩

/-- C2, amended: for every input, the analysis `urgency` field is `"high"`
(and `priority_level` is `"critical"`) iff some extracted lab value has
status Very Low or Very High, else `"moderate"` iff some value has status Low
or High, else `"routine"`; the urgency field never equals `"critical"`.
Because these equations hold for every text, the separately computed
keyword-based priority (stored under `ai_insights`) never downgrades a
lab-value-driven critical classification. -/
theorem C2_amended_urgency (text : String) (hm : HeaderMatches)
    (mr : List (List (List String))) :
    ((analyze_medical_text_enhanced text hm mr).urgency =
      if (analyze_medical_text_enhanced text hm mr).lab_values.any
          (fun v => v.status == "Very Low" || v.status == "Very High")
      then "high"
      else if (analyze_medical_text_enhanced text hm mr).lab_values.any
          (fun v => v.status == "Low" || v.status == "High")
      then "moderate" else "routine") ∧
    ((analyze_medical_text_enhanced text hm mr).priority_level =
      if (analyze_medical_text_enhanced text hm mr).lab_values.any
          (fun v => v.status == "Very Low" || v.status == "Very High")
      then "critical"
      else if (analyze_medical_text_enhanced text hm mr).lab_values.any
          (fun v => v.status == "Low" || v.status == "High")
      then "moderate" else "routine") ∧
    (analyze_medical_text_enhanced text hm mr).urgency ≠ "critical" := by
  have hmain :
      ((analyze_medical_text_enhanced text hm mr).urgency =
        if (analyze_medical_text_enhanced text hm mr).lab_values.any
            (fun v => v.status == "Very Low" || v.status == "Very High")
        then "high"
        else if (analyze_medical_text_enhanced text hm mr).lab_values.any
            (fun v => v.status == "Low" || v.status == "High")
        then "moderate" else "routine") ∧
      ((analyze_medical_text_enhanced text hm mr).priority_level =
        if (analyze_medical_text_enhanced text hm mr).lab_values.any
            (fun v => v.status == "Very Low" || v.status == "Very High")
        then "critical"
        else if (analyze_medical_text_enhanced text hm mr).lab_values.any
            (fun v => v.status == "Low" || v.status == "High")
        then "moderate" else "routine") := by
    unfold analyze_medical_text_enhanced
    split
    · exact ⟨rfl, rfl⟩
    · simp [urgencyFromLabs_eq]
  refine ⟨hmain.1, hmain.2, ?_⟩
  rw [hmain.1]
  split
  · decide
  · split <;> decide

/-- C7: the analysis never fails: for every input the result is a complete
analysis object whose urgency is one of `routine`/`moderate`/`high` and whose
priority level is one of `routine`/`moderate`/`critical`; and for the empty
string it is exactly the all-default analysis — zero lab values, urgency
`routine`, and every header field at its `Unknown X` sentinel. -/
theorem C7_total_and_empty_default :
    (∀ hm mr, analyze_medical_text_enhanced "" hm mr = defaultAnalysis) ∧
    defaultAnalysis.lab_values = [] ∧
    defaultAnalysis.urgency = "routine" ∧
    defaultAnalysis.lab_name = "Unknown Lab" ∧
    defaultAnalysis.doctor_name = "Unknown Doctor" ∧
    defaultAnalysis.patient_name = "Unknown Patient" ∧
    defaultAnalysis.report_date = "Unknown Date" ∧
    (∀ text hm mr,
      (analyze_medical_text_enhanced text hm mr).urgency ∈
        (["routine", "moderate", "high"] : List String) ∧
      (analyze_medical_text_enhanced text hm mr).priority_level ∈
        (["routine", "moderate", "critical"] : List String)) := by
  refine ⟨fun hm mr => rfl, rfl, rfl, rfl, rfl, rfl, rfl, fun text hm mr => ?_⟩
  have h := C2_amended_urgency text hm mr
  rw [h.1, (C2_amended_urgency text hm mr).2.1]
  constructor
  · split
    · simp
    · split <;> simp
  · split
    · simp
    · split <;> simp

/-- C9: every input whose whitespace-stripped length is below 10 — not only
the empty string — short-circuits to the all-default analysis, with no
extraction attempted (`app.py:1356-1357`). -/
theorem C9_short_input_default (text : String) (hm : HeaderMatches)
    (mr : List (List (List String)))
    (h : (pyStrip text).length < 10) :
    analyze_medical_text_enhanced text hm mr = defaultAnalysis := by
  unfold analyze_medical_text_enhanced
  rw [if_pos h]

/-- Witness for C9 at the nine-character non-empty input `"CBC notes"`. -/
theorem C9_witness :
    analyze_medical_text_enhanced "CBC notes" ⟨none, none, none⟩ [] =
      defaultAnalysis :=
  C9_short_input_default "CBC notes" ⟨none, none, none⟩ [] (by decide)

end SymptoSeek

namespace SymptoSeek

/-! ## C3, C4, C10 — fallback inference -/

theorem mem_hbFallbackPart (uniq : List LabValue) (tp : String) (e : LabValue)
    (he : e ∈ hbFallbackPart uniq tp) :
    ∃ s, firstDigitRunLen tp 3 3 = some s ∧ e = hbFallbackEntry s := by
  unfold hbFallbackPart at he
  revert he
  split
  next s heq =>
    intro he
    refine ⟨s, heq, ?_⟩
    revert he
    split <;> intro he
    · revert he
      split <;> intro he
      · revert he
        split <;> intro he
        · exact List.mem_singleton.mp he
        · exact absurd he (List.not_mem_nil e)
      · exact absurd he (List.not_mem_nil e)
    · exact absurd he (List.not_mem_nil e)
  next heq =>
    intro he
    exact absurd he (List.not_mem_nil e)

theorem mem_wbcFallbackPart (uniq : List LabValue) (tp : String) (e : LabValue)
    (he : e ∈ wbcFallbackPart uniq tp) :
    ∃ m, firstDigitRunLen tp 4 5 = some m ∧ e = wbcFallbackEntry m := by
  unfold wbcFallbackPart at he
  revert he
  split
  next m heq =>
    intro he
    refine ⟨m, heq, ?_⟩
    revert he
    split <;> intro he
    · revert he
      split <;> intro he
      · exact List.mem_singleton.mp he
      · exact absurd he (List.not_mem_nil e)
    · exact absurd he (List.not_mem_nil e)
  next heq =>
    intro he
    exact absurd he (List.not_mem_nil e)

theorem hbFallbackPart_eq (uniq : List LabValue) (tp s : String)
    (h3 : firstDigitRunLen tp 3 3 = some s)
    (hh : hasTest uniq "HEMOGLOBIN" = false) :
    hbFallbackPart uniq tp =
      if (pyStartsWith s "3" || pyStartsWith s "1") = true ∧
          ((⟨8, 1⟩ : PyFloat) ≤ (digitsValS s).divNat 10 ∧
            (digitsValS s).divNat 10 ≤ ⟨20, 1⟩)
      then [hbFallbackEntry s] else [] := by
  unfold hbFallbackPart
  rw [h3, hh]
  by_cases hb : (pyStartsWith s "3" || pyStartsWith s "1") = true
  · by_cases hr : (⟨8, 1⟩ : PyFloat) ≤ (digitsValS s).divNat 10 ∧
        (digitsValS s).divNat 10 ≤ ⟨20, 1⟩
    · simp [hb, hr]
    · simp [hb, hr]
  · simp [hb]

theorem wbcFallbackPart_eq (uniq : List LabValue) (tp m : String)
    (h45 : firstDigitRunLen tp 4 5 = some m)
    (hw : hasTest uniq "WBC COUNT" = false) :
    wbcFallbackPart uniq tp =
      if (⟨1, 1⟩ : PyFloat) ≤ (digitsValS m).divNat 1000 ∧
          (digitsValS m).divNat 1000 ≤ ⟨20, 1⟩
      then [wbcFallbackEntry m] else [] := by
  unfold wbcFallbackPart
  rw [h45, hw]
  by_cases hr : (⟨1, 1⟩ : PyFloat) ≤ (digitsValS m).divNat 1000 ∧
      (digitsValS m).divNat 1000 ≤ ⟨20, 1⟩
  · simp [hr]
  · simp [hr]

/-- C3 counterexample input: the honest HEMOGLOBIN-pattern captures on the
preprocessed text `"HEMOGLOBIN 200"` — the first three patterns require a
unit suffix and do not match; patterns 4-7 each capture `"200"`; no pattern
of the other eight tests matches. -/
def mrC3 : List (List (List String)) :=
  [[[], [], [], ["200"], ["200"], ["200"], ["200"]]]

/-- C3, counterexample: on text `"HEMOGLOBIN 200"` the fallback trigger
holds (no test extracted — 200 fails the HEMOGLOBIN sanity bound — and the
keyword `HEMOGLOBIN` is present), the first bare 3-digit number is `200`, and
`200/10 = 20.0` lies within the widened range [8.0, 20.0]; yet the result
contains no HEMOGLOBIN entry at all, because the source additionally requires
`value_str.startswith('3')` or `('1')` (`app.py:1296`), which `200` fails.
This refutes the claim's `if and only if`. -/
theorem C3_counterexample :
    firstDigitRunLen (preprocessUpper "HEMOGLOBIN 200") 3 3 = some "200" ∧
    ((⟨8, 1⟩ : PyFloat) ≤ (digitsValS "200").divNat 10 ∧
      (digitsValS "200").divNat 10 ≤ ⟨20, 1⟩) ∧
    extract_lab_values_from_cbc "HEMOGLOBIN 200" mrC3 = [] := by
  refine ⟨by decide, by decide, by decide⟩

/-- C3, amended: with the fallback active, the bare 3-digit number found by
the scan becomes a HEMOGLOBIN entry (value `/10`, confidence
`medium-fallback`) iff its first digit is `3` or `1` AND the value/10 lies in
[8.0, 20.0] (and no HEMOGLOBIN entry exists yet); the bare 4-5-digit number
becomes a WBC COUNT entry (value `/1000`, confidence `medium-fallback`) iff
the value/1000 lies in [1.0, 20.0] (and no WBC COUNT entry exists yet). -/
theorem C3_amended_fallback :
    (∀ (uniq : List LabValue) (tp s : String),
      firstDigitRunLen tp 3 3 = some s → hasTest uniq "HEMOGLOBIN" = false →
      (fallbackValues uniq tp).filter (fun e => e.test == "HEMOGLOBIN") =
        (if (pyStartsWith s "3" || pyStartsWith s "1") = true ∧
            ((⟨8, 1⟩ : PyFloat) ≤ (digitsValS s).divNat 10 ∧
              (digitsValS s).divNat 10 ≤ ⟨20, 1⟩)
         then [hbFallbackEntry s] else [])) ∧
    (∀ (uniq : List LabValue) (tp m : String),
      firstDigitRunLen tp 4 5 = some m → hasTest uniq "WBC COUNT" = false →
      (fallbackValues uniq tp).filter (fun e => e.test == "WBC COUNT") =
        (if (⟨1, 1⟩ : PyFloat) ≤ (digitsValS m).divNat 1000 ∧
            (digitsValS m).divNat 1000 ≤ ⟨20, 1⟩
         then [wbcFallbackEntry m] else [])) ∧
    (∀ s, (hbFallbackEntry s).value = (digitsValS s).divNat 10 ∧
      (hbFallbackEntry s).confidence = "medium-fallback") ∧
    (∀ m, (wbcFallbackEntry m).value = (digitsValS m).divNat 1000 ∧
      (wbcFallbackEntry m).confidence = "medium-fallback") := by
  refine ⟨?_, ?_, fun s => ⟨rfl, rfl⟩, fun m => ⟨rfl, rfl⟩⟩
  · intro uniq tp s h3 hh
    unfold fallbackValues
    rw [List.filter_append, hbFallbackPart_eq uniq tp s h3 hh]
    have hw : (wbcFallbackPart uniq tp).filter
        (fun e => e.test == "HEMOGLOBIN") = [] := by
      rw [List.filter_eq_nil]
      intro a ha
      obtain ⟨m, _, rfl⟩ := mem_wbcFallbackPart uniq tp a ha
      simp [wbcFallbackEntry]
    rw [hw, List.append_nil]
    split
    · simp [hbFallbackEntry]
    · rfl
  · intro uniq tp m h45 hw
    unfold fallbackValues
    rw [List.filter_append, wbcFallbackPart_eq uniq tp m h45 hw]
    have hh : (hbFallbackPart uniq tp).filter
        (fun e => e.test == "WBC COUNT") = [] := by
      rw [List.filter_eq_nil]
      intro a ha
      obtain ⟨s, _, rfl⟩ := mem_hbFallbackPart uniq tp a ha
      simp [hbFallbackEntry]
    rw [hh, List.nil_append]
    split
    · simp [wbcFallbackEntry]
    · rfl

/-- Witness for C3 on the text `"CBC 125 1500"` (first 3-digit run `125`,
first 4-5-digit run `1500`, no prior entries): both fallback entries are
produced, with values 12.5 and 1.5 and confidence `medium-fallback`. -/
theorem C3_witness :
    (fallbackValues [] "CBC 125 1500").filter (fun e => e.test == "HEMOGLOBIN") =
      [hbFallbackEntry "125"] ∧
    (fallbackValues [] "CBC 125 1500").filter (fun e => e.test == "WBC COUNT") =
      [wbcFallbackEntry "1500"] := by
  constructor
  · rw [C3_amended_fallback.1 [] "CBC 125 1500" "125" (by decide) (by decide)]
    decide
  · rw [C3_amended_fallback.2.1 [] "CBC 125 1500" "1500" (by decide) (by decide)]
    decide

/-- C4 failing input: the honest HEMOGLOBIN-pattern captures on the
preprocessed `"HEMOGLOBIN HEMCJ 345"` — patterns 1-3 require a unit and
pattern 4 requires digits right after the test name, so none match; patterns
5-7 each capture `"345"`; no pattern of the other tests matches. -/
def mrC4 : List (List (List String)) :=
  [[[], [], [], [], ["345"], ["345"], ["345"]]]

/-- C4 (code bug): on the repository's own sample text
`"HEMOGLOBIN HemcJ 345"`, the dedicated `'345' → '34.5'` correction
(`app.py:1208-1209`) produces 34.5, which the HEMOGLOBIN sanity bound 3-25
(`app.py:1219`) rejects; and despite the fallback's own example comment
`"like 345 -> 34.5"` (`app.py:1292`), 34.5 also fails the fallback range
check 8.0-20.0 (`app.py:1298`).  The result therefore contains no HEMOGLOBIN
entry at all, contradicting the claimed HEMOGLOBIN entry of value 34.5 with
confidence `medium-fallback`. -/
theorem C4_no_hemoglobin_entry_for_345 :
    sanityReject "HEMOGLOBIN" ⟨345, 10⟩ = true ∧
    ¬((⟨8, 1⟩ : PyFloat) ≤ (digitsValS "345").divNat 10 ∧
      (digitsValS "345").divNat 10 ≤ ⟨20, 1⟩) ∧
    extract_lab_values_from_cbc "HEMOGLOBIN HemcJ 345" mrC4 = [] := by
  refine ⟨by decide, by decide, by decide⟩

/-- C10: every entry produced by fallback inference has status `Low`,
`Normal` or `High` only (computed by direct comparison with the range
endpoints, not the seven-level classifier) and confidence `medium-fallback`;
and a list of lab values whose statuses all lie in {Low, Normal, High} can
never drive the lab-value urgency to the critical classification
(urgency `high` / priority_level `critical`). -/
theorem C10_fallback_never_critical :
    (∀ (uniq : List LabValue) (tp : String), ∀ e ∈ fallbackValues uniq tp,
      (e.status = "Low" ∨ e.status = "Normal" ∨ e.status = "High") ∧
      e.confidence = "medium-fallback") ∧
    (∀ labs : List LabValue,
      (∀ e ∈ labs, e.status = "Low" ∨ e.status = "Normal" ∨ e.status = "High") →
      (urgencyFromLabs labs).1 ≠ "high" ∧ (urgencyFromLabs labs).2 ≠ "critical") := by
  constructor
  · intro uniq tp e he
    unfold fallbackValues at he
    rw [List.mem_append] at he
    rcases he with he | he
    · obtain ⟨s, _, rfl⟩ := mem_hbFallbackPart uniq tp e he
      dsimp only [hbFallbackEntry]
      refine ⟨?_, rfl⟩
      split
      · exact Or.inl rfl
      · split
        · exact Or.inr (Or.inl rfl)
        · exact Or.inr (Or.inr rfl)
    · obtain ⟨m, _, rfl⟩ := mem_wbcFallbackPart uniq tp e he
      dsimp only [wbcFallbackEntry]
      refine ⟨?_, rfl⟩
      split
      · exact Or.inl rfl
      · split
        · exact Or.inr (Or.inl rfl)
        · exact Or.inr (Or.inr rfl)
  · intro labs hl
    have hcrit : (labs.any fun v =>
        v.status == "Very Low" || v.status == "Very High") = false := by
      rw [List.any_eq_false]
      intro v hv
      rcases hl v hv with h | h | h <;> simp [h]
    rw [urgencyFromLabs_eq]
    constructor
    · simp only [hcrit]
      rw [if_neg (show ¬ (false = true) by decide)]
      split <;> decide
    · simp only [hcrit]
      rw [if_neg (show ¬ (false = true) by decide)]
      split <;> decide

/-- Witness for C10 at the concrete fallback entry produced from `"125"` in
text `"CBC 125"`. -/
theorem C10_witness :
    ((hbFallbackEntry "125").status = "Low" ∨
      (hbFallbackEntry "125").status = "Normal" ∨
      (hbFallbackEntry "125").status = "High") ∧
    (hbFallbackEntry "125").confidence = "medium-fallback" ∧
    (urgencyFromLabs [hbFallbackEntry "125"]).2 ≠ "critical" := by
  have h1 := C10_fallback_never_critical.1 [] "CBC 125" (hbFallbackEntry "125")
    (by decide)
  have h2 := C10_fallback_never_critical.2 [hbFallbackEntry "125"] (by decide)
  exact ⟨h1.1, h1.2, h2.2⟩

end SymptoSeek

set_option maxRecDepth 1000000

namespace SymptoSeek

/-! ## C6 — the literal correction pass -/

theorem pyReplaceAux_of_not_occurs (pat rep : List Char) (fuel : Nat) :
    ∀ l : List Char, occursIn pat l = false → pyReplaceAux pat rep fuel l = l := by
  induction fuel with
  | zero => intro l h; cases l <;> rfl
  | succ n ih =>
    intro l h
    cases l with
    | nil => rfl
    | cons c rest =>
      unfold occursIn at h
      obtain ⟨h1, h2⟩ : pat.isPrefixOf (c :: rest) = false ∧
          occursIn pat rest = false := by simpa using h
      unfold pyReplaceAux
      rw [if_neg]
      · rw [ih rest h2]
      · intro hc
        have hc2 := hc.2
        rw [h1] at hc2
        exact absurd hc2 (by decide)

theorem pyReplace_of_not_occurs (pat rep l : List Char)
    (h : occursIn pat l = false) : pyReplace pat rep l = l :=
  pyReplaceAux_of_not_occurs pat rep l.length l h

theorem srep_of_not_occurs (s pat rep : String) (h : occursS pat s = false) :
    srep s pat rep = s := by
  unfold srep
  rw [pyReplace_of_not_occurs pat.data rep.data s.data h]

theorem applyTable_of_no_key (tbl : List (String × String)) (s : String)
    (h : ∀ kv ∈ tbl, occursS kv.1 s = false) :
    tbl.foldl (fun t kv => srep t kv.1 kv.2) s = s := by
  induction tbl with
  | nil => rfl
  | cons kv rest ih =>
    rw [List.foldl_cons,
      srep_of_not_occurs s kv.1 kv.2 (h kv (List.mem_cons_self kv rest))]
    exact ih fun kv2 hkv2 => h kv2 (List.mem_cons_of_mem kv hkv2)

/-- C6, counterexample: the claim fails on the input `"LLOGY PATHOLOGY"`.
The whitespace pass (step 1) leaves it unchanged; the literal table
(step 2) rewrites it, via the entry `'LOGY PATHOLOGY' → 'DRLOGY PATHOLOGY'`,
to `"LDRLOGY PATHOLOGY"`; and `regexPassesInert` certifies that the regex
passes (steps 3-5) leave `"LDRLOGY PATHOLOGY"` unchanged — it has no digit,
its word runs `LDRLOGY` and `PATHOLOGY` start with `ld` and `pa` (so no
`\b`-anchored name alternation can begin in them; in particular the
`re.IGNORECASE` doctor-name rule at `app.py:829` needs a word boundary
before `dr`, and the only `DR` here sits inside the word `LDRLOGY`), the
run `PATHOLOGY` is rewritten to itself by the rule at `app.py:820`, and the
case-sensitive fix at `app.py:838` finds no `Dr`.  So
`"LDRLOGY PATHOLOGY"` is the full normalizer output of
`"LLOGY PATHOLOGY"` — yet applying the literal table to it again yields
`"LDRDRLOGY PATHOLOGY"`: the pass is not idempotent on normalized text. -/
theorem C6_counterexample :
    literalNormalizePass "LLOGY PATHOLOGY" = "LDRLOGY PATHOLOGY" ∧
    regexPassesInert "LDRLOGY PATHOLOGY" = true ∧
    applyCorrections "LDRLOGY PATHOLOGY" = "LDRDRLOGY PATHOLOGY" ∧
    applyCorrections "LDRLOGY PATHOLOGY" ≠ "LDRLOGY PATHOLOGY" :=
  ⟨by decide, by decide, by decide, by decide⟩

/-- C6, amended: the literal pass is idempotent exactly on key-free text —
any string containing no occurrence of a correction key is left unchanged by
the table — but normalized output need not be key-free: the entry
`'LOGY PATHOLOGY' → 'DRLOGY PATHOLOGY'` is in the table, its replacement
contains its own key, and it is the only table entry whose replacement
contains any key of the table; re-applying the table to a normalized text
still containing that key (such as the output `"LDRLOGY PATHOLOGY"` of the
counterexample, where the leading `L` shields the `DR` from the doctor-name
regexes) therefore prepends another `"DR"`. -/
theorem C6_amended_literal_idempotence :
    (∀ s : String, (∀ kv ∈ corrections, occursS kv.1 s = false) →
      applyCorrections s = s) ∧
    ("LOGY PATHOLOGY", "DRLOGY PATHOLOGY") ∈ corrections ∧
    occursS "LOGY PATHOLOGY" "DRLOGY PATHOLOGY" = true ∧
    (∀ kv ∈ corrections, ∀ kv2 ∈ corrections, occursS kv2.1 kv.2 = true →
      kv.1 = "LOGY PATHOLOGY" ∧ kv2.1 = "LOGY PATHOLOGY") := by
  refine ⟨fun s h => applyTable_of_no_key corrections s h,
    by decide, by decide, by decide⟩

/-- Witness for C6 on the key-free string `"HELLO WORLD"`: the literal pass
leaves it unchanged. -/
theorem C6_witness : applyCorrections "HELLO WORLD" = "HELLO WORLD" :=
  C6_amended_literal_idempotence.1 "HELLO WORLD" (by decide)

end SymptoSeek

namespace SymptoSeek

/-! ## C8 — condition rules -/

theorem mem_anemiaRule (labs : List LabValue) (c : MedicalCondition)
    (hc : c ∈ anemiaRule labs) : c.condition = "Possible Anemia" := by
  unfold anemiaRule at hc
  revert hc
  split
  next hgb heq =>
    intro hc
    revert hc
    split <;> intro hc
    · rw [List.mem_singleton] at hc
      subst hc
      rfl
    · exact absurd hc (List.not_mem_nil c)
  next heq =>
    intro hc
    exact absurd hc (List.not_mem_nil c)

theorem mem_infectionRule (labs : List LabValue) (c : MedicalCondition)
    (hc : c ∈ infectionRule labs) :
    c.condition = "Possible Infection/Inflammation" := by
  unfold infectionRule at hc
  revert hc
  split
  next wbc heq =>
    intro hc
    revert hc
    split <;> intro hc
    · rw [List.mem_singleton] at hc
      subst hc
      rfl
    · exact absurd hc (List.not_mem_nil c)
  next heq =>
    intro hc
    exact absurd hc (List.not_mem_nil c)

theorem mem_plateletRule (labs : List LabValue) (c : MedicalCondition)
    (hc : c ∈ plateletRule labs) :
    c.condition = "Thrombocytopenia (Low Platelets)" ∨
    c.condition = "Thrombocytosis (High Platelets)" := by
  unfold plateletRule at hc
  revert hc
  split
  next plt heq =>
    intro hc
    revert hc
    split <;> intro hc
    · rw [List.mem_singleton] at hc
      subst hc
      exact Or.inl rfl
    · revert hc
      split <;> intro hc
      · rw [List.mem_singleton] at hc
        subst hc
        exact Or.inr rfl
      · exact absurd hc (List.not_mem_nil c)
  next heq =>
    intro hc
    exact absurd hc (List.not_mem_nil c)

/-- C8: the condition rules fire exactly off the first matching lab value of
each test.  If the first HEMOGLOBIN value has status Low or Very Low, the
conditions include `Possible Anemia` with severity Severe iff Very Low; if
the first WBC value has status High or Very High, they include
`Possible Infection/Inflammation`; if the first PLATELET value has status
Low / Very Low the conditions include one starting with `Thrombocytopenia`,
and for High / Very High one starting with `Thrombocytosis`; absence of a
HEMOGLOBIN value silently yields no anemia condition (no error). -/
theorem C8_condition_rules (labs : List LabValue) :
    (∀ hgb, firstLabWith "HEMOGLOBIN" labs = some hgb →
      hgb.status = "Low" ∨ hgb.status = "Very Low" →
      (⟨"Possible Anemia",
        if hgb.status == "Very Low" then "Severe" else "Moderate",
        "Hemoglobin: " ++ ratRepr hgb.value ++ " " ++ hgb.unit⟩ :
        MedicalCondition) ∈ detectConditions labs) ∧
    (∀ wbc, firstLabWith "WBC" labs = some wbc →
      wbc.status = "High" ∨ wbc.status = "Very High" →
      ∃ c ∈ detectConditions labs,
        c.condition = "Possible Infection/Inflammation") ∧
    (∀ plt, firstLabWith "PLATELET" labs = some plt →
      ((plt.status = "Low" ∨ plt.status = "Very Low") →
        ∃ c ∈ detectConditions labs,
          pyStartsWith c.condition "Thrombocytopenia" = true) ∧
      ((plt.status = "High" ∨ plt.status = "Very High") →
        ∃ c ∈ detectConditions labs,
          pyStartsWith c.condition "Thrombocytosis" = true)) ∧
    (firstLabWith "HEMOGLOBIN" labs = none →
      ∀ c ∈ detectConditions labs, c.condition ≠ "Possible Anemia") := by
  refine ⟨?_, ?_, ?_, ?_⟩
  · intro hgb hfind hstat
    have hb : (hgb.status == "Low" || hgb.status == "Very Low") = true := by
      rcases hstat with h | h <;> simp [h]
    have hmem : (⟨"Possible Anemia",
        if hgb.status == "Very Low" then "Severe" else "Moderate",
        "Hemoglobin: " ++ ratRepr hgb.value ++ " " ++ hgb.unit⟩ :
        MedicalCondition) ∈ anemiaRule labs := by
      unfold anemiaRule
      rw [hfind]
      show _ ∈ (if hgb.status == "Low" || hgb.status == "Very Low" then
        [(⟨"Possible Anemia",
          if hgb.status == "Very Low" then "Severe" else "Moderate",
          "Hemoglobin: " ++ ratRepr hgb.value ++ " " ++ hgb.unit⟩ :
          MedicalCondition)] else [])
      rw [if_pos hb]
      exact List.mem_singleton.mpr rfl
    exact List.mem_append_left _ (List.mem_append_left _ hmem)
  · intro wbc hfind hstat
    have hb : (wbc.status == "High" || wbc.status == "Very High") = true := by
      rcases hstat with h | h <;> simp [h]
    refine ⟨⟨"Possible Infection/Inflammation", "Moderate",
      "WBC Count: " ++ ratRepr wbc.value ++ " " ++ wbc.unit⟩, ?_, rfl⟩
    have hmem : (⟨"Possible Infection/Inflammation", "Moderate",
        "WBC Count: " ++ ratRepr wbc.value ++ " " ++ wbc.unit⟩ :
        MedicalCondition) ∈ infectionRule labs := by
      unfold infectionRule
      rw [hfind]
      show _ ∈ (if wbc.status == "High" || wbc.status == "Very High" then
        [(⟨"Possible Infection/Inflammation", "Moderate",
          "WBC Count: " ++ ratRepr wbc.value ++ " " ++ wbc.unit⟩ :
          MedicalCondition)] else [])
      rw [if_pos hb]
      exact List.mem_singleton.mpr rfl
    exact List.mem_append_left _ (List.mem_append_right _ hmem)
  · intro plt hfind
    constructor
    · intro hstat
      have hb : (plt.status == "Low" || plt.status == "Very Low") = true := by
        rcases hstat with h | h <;> simp [h]
      refine ⟨⟨"Thrombocytopenia (Low Platelets)", "Moderate",
        "Platelet Count: " ++ ratRepr plt.value ++ " " ++ plt.unit⟩, ?_,
        rfl⟩
      have hmem : (⟨"Thrombocytopenia (Low Platelets)", "Moderate",
          "Platelet Count: " ++ ratRepr plt.value ++ " " ++ plt.unit⟩ :
          MedicalCondition) ∈ plateletRule labs := by
        unfold plateletRule
        rw [hfind]
        show _ ∈ (if plt.status == "Low" || plt.status == "Very Low" then
          [(⟨"Thrombocytopenia (Low Platelets)", "Moderate",
            "Platelet Count: " ++ ratRepr plt.value ++ " " ++ plt.unit⟩ :
            MedicalCondition)]
          else if plt.status == "High" || plt.status == "Very High" then
          [(⟨"Thrombocytosis (High Platelets)", "Moderate",
            "Platelet Count: " ++ ratRepr plt.value ++ " " ++ plt.unit⟩ :
            MedicalCondition)] else [])
        rw [if_pos hb]
        exact List.mem_singleton.mpr rfl
      exact List.mem_append_right _ hmem
    · intro hstat
      have hb : (plt.status == "High" || plt.status == "Very High") = true := by
        rcases hstat with h | h <;> simp [h]
      have hlow : (plt.status == "Low" || plt.status == "Very Low") = false := by
        rcases hstat with h | h <;> simp [h]
      refine ⟨⟨"Thrombocytosis (High Platelets)", "Moderate",
        "Platelet Count: " ++ ratRepr plt.value ++ " " ++ plt.unit⟩, ?_,
        rfl⟩
      have hmem : (⟨"Thrombocytosis (High Platelets)", "Moderate",
          "Platelet Count: " ++ ratRepr plt.value ++ " " ++ plt.unit⟩ :
          MedicalCondition) ∈ plateletRule labs := by
        unfold plateletRule
        rw [hfind]
        show _ ∈ (if plt.status == "Low" || plt.status == "Very Low" then
          [(⟨"Thrombocytopenia (Low Platelets)", "Moderate",
            "Platelet Count: " ++ ratRepr plt.value ++ " " ++ plt.unit⟩ :
            MedicalCondition)]
          else if plt.status == "High" || plt.status == "Very High" then
          [(⟨"Thrombocytosis (High Platelets)", "Moderate",
            "Platelet Count: " ++ ratRepr plt.value ++ " " ++ plt.unit⟩ :
            MedicalCondition)] else [])
        rw [if_neg (show ¬ ((plt.status == "Low" ||
            plt.status == "Very Low") = true) by rw [hlow]; decide)]
        rw [if_pos hb]
        exact List.mem_singleton.mpr rfl
      exact List.mem_append_right _ hmem
  · intro hnone c hc
    unfold detectConditions at hc
    rw [List.mem_append] at hc
    rcases hc with hc | hc
    · rw [List.mem_append] at hc
      rcases hc with hc | hc
      · unfold anemiaRule at hc
        rw [hnone] at hc
        exact absurd hc (List.not_mem_nil c)
      · rw [mem_infectionRule labs c hc]
        decide
    · rcases mem_plateletRule labs c hc with h | h <;> rw [h] <;> decide

/-- A concrete extracted lab value for the C8 witness: HEMOGLOBIN 11.2,
status Low. -/
def labC8 : LabValue :=
  ⟨"HEMOGLOBIN", ⟨112, 10⟩, "g/dL", "Low", "12.0-15.5 g/dL", "CBC", "11.2",
    "high"⟩

/-- Witness for C8: for the single Low HEMOGLOBIN value 11.2, the detected
conditions include `Possible Anemia` with severity Moderate. -/
theorem C8_witness :
    (⟨"Possible Anemia",
      if labC8.status == "Very Low" then "Severe" else "Moderate",
      "Hemoglobin: " ++ ratRepr labC8.value ++ " " ++ labC8.unit⟩ :
      MedicalCondition) ∈ detectConditions [labC8] :=
  (C8_condition_rules [labC8]).1 labC8 (by decide) (Or.inl rfl)

end SymptoSeek

namespace SymptoSeek

/-! ## C5: per-test uniqueness and first-pattern precedence -/

/-- `updateOrAppend` never changes the key list when the key is present, and
appends exactly the new key otherwise. -/
theorem test_updateOrAppend_map (acc : List LabValue) (lab : LabValue) :
    (updateOrAppend acc lab).map (fun l => l.test) =
      if acc.any (fun x => x.test == lab.test) then acc.map (fun l => l.test)
      else acc.map (fun l => l.test) ++ [lab.test] := by
  unfold updateOrAppend
  split
  · next h =>
    rw [List.map_map]
    refine List.map_congr_left ?_
    intro a _
    by_cases ha : a.test = lab.test
    · simp [Function.comp, ha]
    · simp [Function.comp, ha]
  · next h =>
    simp

/-- One step of the duplicate-removal loop keeps the test names pairwise
distinct. -/
theorem nodup_test_dedupStep (acc : List LabValue) (lab : LabValue)
    (h : (acc.map (fun l => l.test)).Nodup) :
    ((dedupStep acc lab).map (fun l => l.test)).Nodup := by
  unfold dedupStep
  split
  · rw [test_updateOrAppend_map]
    split
    · exact h
    · next hany =>
      have hnm : lab.test ∉ acc.map (fun l => l.test) := by
        intro hmem
        rcases List.mem_map.1 hmem with ⟨x, hx, hxe⟩
        exact hany (List.any_eq_true.2 ⟨x, hx, by simp [hxe]⟩)
      simp [List.nodup_append, h, hnm]
  · exact h

/-- The whole duplicate-removal fold keeps the test names pairwise
distinct. -/
theorem nodup_test_foldl : ∀ (labs acc : List LabValue),
    (acc.map (fun l => l.test)).Nodup →
    ((labs.foldl dedupStep acc).map (fun l => l.test)).Nodup
  | [], _, h => h
  | l :: rest, acc, h => by
    rw [List.foldl_cons]
    exact nodup_test_foldl rest _ (nodup_test_dedupStep acc l h)

/-- `dedupLabs` always yields pairwise-distinct test names. -/
theorem nodup_test_dedupLabs (labs : List LabValue) :
    ((dedupLabs labs).map (fun l => l.test)).Nodup :=
  nodup_test_foldl labs [] (by simp)

/-- The fallback-append loop only adds entries for absent test names, so it
keeps the test names pairwise distinct. -/
theorem nodup_test_addFallbacks : ∀ (fvs acc : List LabValue),
    (acc.map (fun l => l.test)).Nodup →
    ((addFallbacks acc fvs).map (fun l => l.test)).Nodup
  | [], _, h => h
  | f :: rest, acc, h => by
    unfold addFallbacks
    rw [List.foldl_cons]
    have hstep : ((if !(hasTest acc f.test) then acc ++ [f] else acc).map
        (fun l => l.test)).Nodup := by
      split
      · next hc =>
        have hnm : f.test ∉ acc.map (fun l => l.test) := by
          intro hmem
          rcases List.mem_map.1 hmem with ⟨x, hx, hxe⟩
          have hht : hasTest acc f.test = true :=
            List.any_eq_true.2 ⟨x, hx, by simp [hxe]⟩
          simp [hht] at hc
        simp [List.nodup_append, h, hnm]
      · exact h
    exact nodup_test_addFallbacks rest _ hstep

/-- Match-oracle input for the concrete C5 run on `"HEMOGLOBIN: 11.2 g/dL"`:
the first HEMOGLOBIN pattern captures `"11.2"`, and a later pattern also
captures `"11.2"`; no other test matches. -/
def mrC5 : List (List (List String)) :=
  [[["11.2"], ["11.2"]], [], [], [], [], [], [], [], []]

/-- **C5.** (i) Every extraction result has at most one entry per test
identifier: the test names of `extract_lab_values_from_cbc` are pairwise
distinct for every input text and every oracle answer (duplicates are
discarded by `dedupStep`, never averaged or summed).  (ii) When the first
configured pattern of a test yields an accepted value, `processTest`
produces exactly one entry — built from that first-pattern value, with
confidence `high` — regardless of what later patterns would match.
(iii) Concretely, on `"HEMOGLOBIN: 11.2 g/dL"` with the first HEMOGLOBIN
pattern and a later one both capturing `11.2`, the final result is exactly
one HEMOGLOBIN entry of value 11.2 with confidence `high`. -/
theorem C5_unique_first_pattern
    (text : String) (mr : List (List (List String)))
    (cfg : LabConfig) (v : PyFloat) (raw : String)
    (ms0 : List String) (rest : List (List String))
    (h : firstAcceptedIn cfg.name ms0 = some (v, raw)) :
    ((extract_lab_values_from_cbc text mr).map (fun l => l.test)).Nodup ∧
    (processTest cfg (ms0 :: rest) = [mkLabValue cfg v raw "high"] ∧
      (mkLabValue cfg v raw "high").confidence = "high") ∧
    extract_lab_values_from_cbc "HEMOGLOBIN: 11.2 g/dL" mrC5 =
      [⟨"HEMOGLOBIN", ⟨112, 10⟩, "g/dL", "Low", "12.0-15.5 g/dL", "CBC",
        "11.2", "high"⟩] := by
  refine ⟨?_, ⟨?_, rfl⟩, ?_⟩
  · simp only [extract_lab_values_from_cbc]
    split
    · exact nodup_test_addFallbacks _ _ (nodup_test_dedupLabs _)
    · exact nodup_test_dedupLabs _
  · simp [processTest, firstPatternHit, h]
  · decide

/-- Witness for C5 at the concrete run: the first HEMOGLOBIN pattern accepts
`11.2`, and the extraction yields the single high-confidence entry. -/
theorem C5_witness :
    extract_lab_values_from_cbc "HEMOGLOBIN: 11.2 g/dL" mrC5 =
      [⟨"HEMOGLOBIN", ⟨112, 10⟩, "g/dL", "Low", "12.0-15.5 g/dL", "CBC",
        "11.2", "high"⟩] :=
  (C5_unique_first_pattern "HEMOGLOBIN: 11.2 g/dL" mrC5
    ⟨"HEMOGLOBIN", "g/dL", ⟨12, 1⟩, ⟨155, 10⟩, "CBC", "12.0-15.5 g/dL"⟩
    ⟨112, 10⟩ "11.2" ["11.2"] [["11.2"]] (by decide)).2.2

end SymptoSeek
